import Mathlib

/-!
# ThresholdUtil and WeatherForecast: a shallow embedding

The two units of the repository are embedded as pure Lean functions.

* `float` values are modelled by rationals (`ℚ`), i.e. arithmetic is exact.
* `uint8_t` fields are naturals kept below `256` by an explicit `% 256`.
* `unsigned long` time stamps are naturals kept below `2 ^ 32` by an explicit
  `% ULONG_MOD` (the width of `unsigned long` on the Arduino targets).
* The linked list of `ThresholdedSensorStruct` nodes is a `List`; the
  `nextNode` pointer is the list structure itself.
* The two callbacks act on an environment state `σ` (everything outside the
  library: the sensors, the radio); the calls made are recorded as a list of
  `CallbackEvent`s.
-/

namespace ThresholdUtil

/-- The enum `ThreshHoldedSensorType`. -/
inductive ThreshHoldedSensorType where
  | TEMPERATURE_SENSOR
  | HUMIDTY_SENSOR
  | LIGHTLEVEL_SENSOR
  | CUSTOM_SENSOR
  deriving DecidableEq, Repr

/-- The struct `ThresholdedSensorStruct`, without its `nextNode` pointer. -/
structure ThresholdedSensorStruct where
  child_id : Nat
  sensor_id : Nat
  sensor_type : ThreshHoldedSensorType
  threshHold : ℚ
  forcedTransmissionInterval : Nat
  measureCounter : Nat
  lastValue : ℚ
  lastChecked : Nat
  readingInterval : Nat
  deriving DecidableEq, Repr

/-- One call made by the library to one of the two callbacks of the sketch. -/
inductive CallbackEvent where
  | valueRequested (aSensorId : Nat) (aType : ThreshHoldedSensorType)
  | valueTransmission (child_id : Nat) (sensor_id : Nat)
      (sensor_type : ThreshHoldedSensorType) (value : ℚ)
  deriving DecidableEq, Repr

/-- The type `SensorValueRequestedCallback`: the value written through the
`float *value` argument is the first component of the result. -/
abbrev SensorValueRequestedCallback (σ : Type) : Type :=
  σ → Nat → ThreshHoldedSensorType → ℚ × σ

/-- The type `SensorValueTransmission`. -/
abbrev SensorValueTransmission (σ : Type) : Type :=
  σ → Nat → Nat → ThreshHoldedSensorType → ℚ → σ

/-- Number of values of an `unsigned long` (32 bits on the Arduino targets);
arithmetic on time stamps is taken modulo this number. -/
def ULONG_MOD : Nat := 4294967296

/-- Modelled from the spec: the macro `abs` of the Arduino core, which is not
part of the repository; "Compute `delta = abs(last_reported_value - value)`".
The core defines it as `((x)>0?(x):-(x))`. -/
def abs (x : ℚ) : ℚ := if x > 0 then x else -x

/-- The node built by the first ten statements of `registerThresholdedSensor`:
`measureCounter` is `forcedTransmissionInterval - 1` computed in `int` and
stored in a `uint8_t`. -/
def newNode (millis : Nat) (child_id sensor_id : Nat) (sensor_type : ThreshHoldedSensorType)
    (threshHold : ℚ) (readingInterval forcedTransmissionInterval : Nat) :
    ThresholdedSensorStruct :=
  { sensor_id := sensor_id
    child_id := child_id
    sensor_type := sensor_type
    threshHold := threshHold
    forcedTransmissionInterval := forcedTransmissionInterval
    measureCounter := (((forcedTransmissionInterval : Int) - 1) % 256).toNat
    lastValue := 0
    readingInterval := readingInterval
    lastChecked := millis }

/-- The `while ( node->nextNode != NULL )` walk of `registerThresholdedSensor`
started at a non-null `node`, followed by `node->nextNode = aSensor`. -/
def linkAtEnd (aSensor : ThresholdedSensorStruct) :
    ThresholdedSensorStruct → List ThresholdedSensorStruct → List ThresholdedSensorStruct
  | node, [] => [node, aSensor]
  | node, next :: rest => node :: linkAtEnd aSensor next rest

/-- The function `registerThresholdedSensor`; `root` is the list hanging off
`thresHoldedSensorsrootNode` and `millis` the value returned by `millis()`. -/
def registerThresholdedSensor (root : List ThresholdedSensorStruct) (millis : Nat)
    (child_id sensor_id : Nat) (sensor_type : ThreshHoldedSensorType)
    (threshHold : ℚ) (readingInterval forcedTransmissionInterval : Nat) :
    List ThresholdedSensorStruct :=
  let aSensor := newNode millis child_id sensor_id sensor_type threshHold readingInterval
    forcedTransmissionInterval
  match root with
  | [] => [aSensor]
  | node :: rest => linkAtEnd aSensor node rest

/-- What one call of the library leaves behind: the node(s) it worked on, the
environment after the callbacks it made, and those callback calls in order. -/
structure Outcome (α σ : Type) where
  nodes : α
  env : σ
  calls : List CallbackEvent
  deriving DecidableEq

/-- The function `checkIndividualThreshHoldedSensor`. -/
def checkIndividualThreshHoldedSensor {σ : Type} (aSensor : ThresholdedSensorStruct)
    (timeStamp : Nat) (aCallBack : SensorValueRequestedCallback σ)
    (transmissionCallback : SensorValueTransmission σ) (env : σ) :
    Outcome ThresholdedSensorStruct σ :=
  if aSensor.lastChecked ≤ timeStamp then
    let measureCounter := (aSensor.measureCounter + 1) % 256
    let answer := aCallBack env aSensor.sensor_id aSensor.sensor_type
    let value := answer.1
    let lastChecked := (timeStamp + (aSensor.readingInterval * 1000) % ULONG_MOD) % ULONG_MOD
    let diffMeasurement := abs (aSensor.lastValue - value)
    if diffMeasurement ≥ aSensor.threshHold ∨
        measureCounter = aSensor.forcedTransmissionInterval then
      { nodes := { aSensor with
                    measureCounter := 0, lastChecked := lastChecked, lastValue := value }
        env := transmissionCallback answer.2 aSensor.child_id aSensor.sensor_id
          aSensor.sensor_type value
        calls := [CallbackEvent.valueRequested aSensor.sensor_id aSensor.sensor_type,
          CallbackEvent.valueTransmission aSensor.child_id aSensor.sensor_id
            aSensor.sensor_type value] }
    else
      { nodes := { aSensor with measureCounter := measureCounter, lastChecked := lastChecked }
        env := answer.2
        calls := [CallbackEvent.valueRequested aSensor.sensor_id aSensor.sensor_type] }
  else
    { nodes := aSensor, env := env, calls := [] }

/-- The `while ( node->nextNode != NULL )` loop of `checkThresholdedSensors`,
given the nodes after the current one. -/
def checkRemaining {σ : Type} (timeStamp : Nat) (aCallBack : SensorValueRequestedCallback σ)
    (transmissionCallback : SensorValueTransmission σ) :
    List ThresholdedSensorStruct → σ → Outcome (List ThresholdedSensorStruct) σ
  | [], env => { nodes := [], env := env, calls := [] }
  | node :: rest, env =>
    let here := checkIndividualThreshHoldedSensor node timeStamp aCallBack
      transmissionCallback env
    let after := checkRemaining timeStamp aCallBack transmissionCallback rest here.env
    { nodes := here.nodes :: after.nodes, env := after.env, calls := here.calls ++ after.calls }

/-- The function `checkThresholdedSensors`; `millis` is the value returned by
the one call of `millis()`. -/
def checkThresholdedSensors {σ : Type} (root : List ThresholdedSensorStruct) (millis : Nat)
    (aCallBack : SensorValueRequestedCallback σ)
    (transmissionCallback : SensorValueTransmission σ) (env : σ) :
    Outcome (List ThresholdedSensorStruct) σ :=
  let timeStamp := millis
  match root with
  | [] => { nodes := [], env := env, calls := [] }
  | node :: rest =>
    let here := checkIndividualThreshHoldedSensor node timeStamp aCallBack
      transmissionCallback env
    let after := checkRemaining timeStamp aCallBack transmissionCallback rest here.env
    { nodes := here.nodes :: after.nodes, env := after.env, calls := here.calls ++ after.calls }

/-- The node is checked again and again, as the `loop()` of the sketch does by
calling `checkThresholdedSensors`: the k-th check is made with the time stamp
and in the environment given by the k-th entry of `steps` (whatever happened
to the environment in between). The outcome of every check is listed. -/
def checkSuccessively {σ : Type} (aCallBack : SensorValueRequestedCallback σ)
    (transmissionCallback : SensorValueTransmission σ) :
    ThresholdedSensorStruct → List (Nat × σ) → List (Outcome ThresholdedSensorStruct σ)
  | _, [] => []
  | aSensor, step :: steps =>
    let here := checkIndividualThreshHoldedSensor aSensor step.1 aCallBack
      transmissionCallback step.2
    here :: checkSuccessively aCallBack transmissionCallback here.nodes steps

/-- Every check of the run is due and is answered with a value that differs
from the `lastValue` of that moment by less than `threshHold`. -/
def DueAndBelowThreshold {σ : Type} (aCallBack : SensorValueRequestedCallback σ)
    (transmissionCallback : SensorValueTransmission σ) :
    ThresholdedSensorStruct → List (Nat × σ) → Prop
  | _, [] => True
  | aSensor, step :: steps =>
    aSensor.lastChecked ≤ step.1 ∧
    |aSensor.lastValue - (aCallBack step.2 aSensor.sensor_id aSensor.sensor_type).1|
      < aSensor.threshHold ∧
    DueAndBelowThreshold aCallBack transmissionCallback
      (checkIndividualThreshHoldedSensor aSensor step.1 aCallBack transmissionCallback
        step.2).nodes steps

/-- Whether a run is `DueAndBelowThreshold` can be computed. -/
instance decidableDueAndBelowThreshold {σ : Type} (aCallBack : SensorValueRequestedCallback σ)
    (transmissionCallback : SensorValueTransmission σ) :
    (aSensor : ThresholdedSensorStruct) → (steps : List (Nat × σ)) →
      Decidable (DueAndBelowThreshold aCallBack transmissionCallback aSensor steps)
  | _, [] => isTrue trivial
  | aSensor, step :: steps =>
    have := decidableDueAndBelowThreshold aCallBack transmissionCallback
      (checkIndividualThreshHoldedSensor aSensor step.1 aCallBack transmissionCallback
        step.2).nodes steps
    inferInstanceAs (Decidable (_ ∧ _ ∧ _))

/-- The `loop()` of a sketch that does nothing but call `checkThresholdedSensors`:
one poll per entry of `clock`, the value `millis()` returns in that poll. The
outcome of every poll is listed. -/
def loop {σ : Type} (aCallBack : SensorValueRequestedCallback σ)
    (transmissionCallback : SensorValueTransmission σ) :
    List ThresholdedSensorStruct → List Nat → σ →
      List (Outcome (List ThresholdedSensorStruct) σ)
  | _, [], _ => []
  | root, millis :: clock, env =>
    let here := checkThresholdedSensors root millis aCallBack transmissionCallback env
    here :: loop aCallBack transmissionCallback here.nodes clock here.env

/-- Whether a callback call is a call of the transmission callback. -/
def CallbackEvent.isTransmission : CallbackEvent → Bool
  | CallbackEvent.valueRequested _ _ => false
  | CallbackEvent.valueTransmission _ _ _ _ => true

/-- The calls a poll makes for one due node: the value request, then the
transmission if `sent` holds a value. -/
def callsFor (aSensor : ThresholdedSensorStruct) (sent : Option ℚ) : List CallbackEvent :=
  CallbackEvent.valueRequested aSensor.sensor_id aSensor.sensor_type ::
    match sent with
    | none => []
    | some value => [CallbackEvent.valueTransmission aSensor.child_id aSensor.sensor_id
        aSensor.sensor_type value]

/-- Whether a call of the library called the transmission callback. -/
def Outcome.reported {α σ : Type} (o : Outcome α σ) : Bool :=
  o.calls.any CallbackEvent.isTransmission

/-- A value-request callback of a test sketch: the environment is the list of
the values the sensors will show, and every request takes the next one (`0`
once the list is used up). -/
def scriptedCallBack : SensorValueRequestedCallback (List ℚ) :=
  fun env _ _ => (env.headD 0, env.tail)

/-- A transmission callback of a test sketch that leaves the environment alone. -/
def scriptedTransmission : SensorValueTransmission (List ℚ) :=
  fun env _ _ _ _ => env

/-- Whether a check measured the node, that is, requested its value. -/
def Outcome.measured {α σ : Type} (o : Outcome α σ) : Bool :=
  !o.calls.isEmpty

/-- The value given to the last call of the transmission callback among
`calls`, if there is one. -/
def lastTransmitted : List CallbackEvent → Option ℚ
  | [] => none
  | CallbackEvent.valueRequested _ _ :: rest => lastTransmitted rest
  | CallbackEvent.valueTransmission _ _ _ value :: rest =>
    match lastTransmitted rest with
    | some later => some later
    | none => some value

/-- The node as the last check of a run of `checkSuccessively` leaves it; the
node itself when the run is empty. -/
def nodeAfter {σ : Type} (aCallBack : SensorValueRequestedCallback σ)
    (transmissionCallback : SensorValueTransmission σ)
    (aSensor : ThresholdedSensorStruct) (steps : List (Nat × σ)) : ThresholdedSensorStruct :=
  ((checkSuccessively aCallBack transmissionCallback aSensor steps).getLast?.map
    Outcome.nodes).getD aSensor

/-- All the callback calls made for a node in a run of `checkSuccessively`. -/
def callsOf {σ : Type} (aCallBack : SensorValueRequestedCallback σ)
    (transmissionCallback : SensorValueTransmission σ)
    (aSensor : ThresholdedSensorStruct) (steps : List (Nat × σ)) : List CallbackEvent :=
  ((checkSuccessively aCallBack transmissionCallback aSensor steps).map Outcome.calls).flatten

/-- The fields of a node that hold its configuration. -/
def configuration (aSensor : ThresholdedSensorStruct) :
    Nat × Nat × ThreshHoldedSensorType × ℚ × Nat × Nat :=
  (aSensor.child_id, aSensor.sensor_id, aSensor.sensor_type, aSensor.threshHold,
    aSensor.readingInterval, aSensor.forcedTransmissionInterval)

/-- Every node of the list has its counter below its forced interval. -/
def CounterBelowInterval (root : List ThresholdedSensorStruct) : Prop :=
  ∀ node ∈ root, node.measureCounter < node.forcedTransmissionInterval

/-- Whether a list is `CounterBelowInterval` can be computed. -/
instance decidableCounterBelowInterval (root : List ThresholdedSensorStruct) :
    Decidable (CounterBelowInterval root) :=
  inferInstanceAs
    (Decidable (∀ node ∈ root, node.measureCounter < node.forcedTransmissionInterval))

end ThresholdUtil

namespace WeatherForecast

/-- The macro `CONVERSION_FACTOR`, `(1.0/10.0)`. -/
def CONVERSION_FACTOR : ℚ := 1 / 10

/-- The constant `LAST_SAMPLES_COUNT`. -/
def LAST_SAMPLES_COUNT : Nat := 5

/-- The enum `FORECAST`. -/
inductive FORECAST where
  | STABLE
  | SUNNY
  | CLOUDY
  | UNSTABLE
  | THUNDERSTORM
  | UNKNOWN
  deriving DecidableEq, Repr

/-- The integer value of each enumerator of `FORECAST`. -/
def FORECAST.toInt : FORECAST → Int
  | FORECAST.STABLE => 0
  | FORECAST.SUNNY => 1
  | FORECAST.CLOUDY => 2
  | FORECAST.UNSTABLE => 3
  | FORECAST.THUNDERSTORM => 4
  | FORECAST.UNKNOWN => 5

/-- The global variables of `WeatherForecast.h`. `minuteCount` is an `int` that
the code keeps between `0` and `186`, here a natural number. -/
structure Globals where
  lastPressureSamples : Fin 5 → ℚ
  minuteCount : Nat
  dP_dt : ℚ
  pressureAvg : ℚ
  pressureAvg2 : ℚ
  firstRound : Bool

/-- The globals at program start: `minuteCount = 0`, `firstRound = true`, and
the variables without an initialiser zero, as C++ does for globals. -/
def initial : Globals :=
  { lastPressureSamples := fun _ => 0
    minuteCount := 0
    dP_dt := 0
    pressureAvg := 0
    pressureAvg2 := 0
    firstRound := true }

/-- The function `getLastPressureSamplesAverage`. -/
def getLastPressureSamplesAverage (g : Globals) : ℚ :=
  let lastPressureSamplesAverage :=
    (List.finRange 5).foldl (fun acc i => acc + g.lastPressureSamples i) 0
  lastPressureSamplesAverage / 5

/-- The first half of `sample`: the write into the buffer, the counter and the
`if (minuteCount == ...)` chain. -/
def sampleUpdate (g : Globals) (pressure : ℚ) : Globals :=
  let index : Fin 5 := ⟨g.minuteCount % 5, Nat.mod_lt _ (by decide)⟩
  let g := { g with lastPressureSamples := Function.update g.lastPressureSamples index pressure }
  let g := { g with minuteCount := g.minuteCount + 1 }
  let g := if g.minuteCount > 185 then { g with minuteCount := 6 } else g
  if g.minuteCount = 5 then
    { g with pressureAvg := getLastPressureSamplesAverage g }
  else if g.minuteCount = 35 then
    let lastPressureAvg := getLastPressureSamplesAverage g
    let change := (lastPressureAvg - g.pressureAvg) * CONVERSION_FACTOR
    if g.firstRound then { g with dP_dt := change * 2 }
    else { g with dP_dt := change / 1.5 }
  else if g.minuteCount = 65 then
    let lastPressureAvg := getLastPressureSamplesAverage g
    let change := (lastPressureAvg - g.pressureAvg) * CONVERSION_FACTOR
    if g.firstRound then { g with dP_dt := change }
    else { g with dP_dt := change / 2 }
  else if g.minuteCount = 95 then
    let lastPressureAvg := getLastPressureSamplesAverage g
    let change := (lastPressureAvg - g.pressureAvg) * CONVERSION_FACTOR
    if g.firstRound then { g with dP_dt := change / 1.5 }
    else { g with dP_dt := change / 2.5 }
  else if g.minuteCount = 125 then
    let lastPressureAvg := getLastPressureSamplesAverage g
    let g := { g with pressureAvg2 := lastPressureAvg }
    let change := (lastPressureAvg - g.pressureAvg) * CONVERSION_FACTOR
    if g.firstRound then { g with dP_dt := change / 2 }
    else { g with dP_dt := change / 3 }
  else if g.minuteCount = 155 then
    let lastPressureAvg := getLastPressureSamplesAverage g
    let change := (lastPressureAvg - g.pressureAvg) * CONVERSION_FACTOR
    if g.firstRound then { g with dP_dt := change / 2.5 }
    else { g with dP_dt := change / 3.5 }
  else if g.minuteCount = 185 then
    let lastPressureAvg := getLastPressureSamplesAverage g
    let change := (lastPressureAvg - g.pressureAvg) * CONVERSION_FACTOR
    let g := if g.firstRound then { g with dP_dt := change / 3 }
      else { g with dP_dt := change / 4 }
    let g := { g with pressureAvg := g.pressureAvg2 }
    { g with firstRound := false }
  else g

/-- The second half of `sample`: the chain that sets `forecast`. -/
def classify (g : Globals) : Int :=
  if g.minuteCount < 35 ∧ g.firstRound = true then FORECAST.UNKNOWN.toInt
  else if g.dP_dt < -0.25 then FORECAST.THUNDERSTORM.toInt
  else if g.dP_dt > 0.25 then FORECAST.UNSTABLE.toInt
  else if g.dP_dt > -0.25 ∧ g.dP_dt < -0.05 then FORECAST.CLOUDY.toInt
  else if g.dP_dt > 0.05 ∧ g.dP_dt < 0.25 then FORECAST.SUNNY.toInt
  else if g.dP_dt > -0.05 ∧ g.dP_dt < 0.05 then FORECAST.STABLE.toInt
  else FORECAST.UNKNOWN.toInt

/-- The function `sample`: the value it returns and the globals it leaves. -/
def sample (g : Globals) (pressure : ℚ) : Int × Globals :=
  let g := sampleUpdate g pressure
  (classify g, g)

/-- Successive calls of `sample`, one per entry of `pressures`, starting from
the globals `g`: the values returned, in order. -/
def forecasts : Globals → List ℚ → List Int
  | _, [] => []
  | g, pressure :: pressures => (sample g pressure).1 :: forecasts (sample g pressure).2 pressures

/-- The globals after successive calls of `sample`, one per entry of `pressures`. -/
def globalsAfter : Globals → List ℚ → Globals
  | g, [] => g
  | g, pressure :: pressures => globalsAfter (sample g pressure).2 pressures

/-- The statements of `sample` before the `if (minuteCount == ...)` chain: the
write into the buffer and the counter with its wrap from 186 to 6. -/
def storeAndCount (g : Globals) (pressure : ℚ) : Globals :=
  let index : Fin 5 := ⟨g.minuteCount % 5, Nat.mod_lt _ (by decide)⟩
  let g := { g with lastPressureSamples := Function.update g.lastPressureSamples index pressure }
  let g := { g with minuteCount := g.minuteCount + 1 }
  if g.minuteCount > 185 then { g with minuteCount := 6 } else g

/-- The `if (minuteCount == ...)` chain of `sample` on its own. -/
def milestoneChain (g : Globals) : Globals :=
  if g.minuteCount = 5 then
    { g with pressureAvg := getLastPressureSamplesAverage g }
  else if g.minuteCount = 35 then
    let lastPressureAvg := getLastPressureSamplesAverage g
    let change := (lastPressureAvg - g.pressureAvg) * CONVERSION_FACTOR
    if g.firstRound then { g with dP_dt := change * 2 }
    else { g with dP_dt := change / 1.5 }
  else if g.minuteCount = 65 then
    let lastPressureAvg := getLastPressureSamplesAverage g
    let change := (lastPressureAvg - g.pressureAvg) * CONVERSION_FACTOR
    if g.firstRound then { g with dP_dt := change }
    else { g with dP_dt := change / 2 }
  else if g.minuteCount = 95 then
    let lastPressureAvg := getLastPressureSamplesAverage g
    let change := (lastPressureAvg - g.pressureAvg) * CONVERSION_FACTOR
    if g.firstRound then { g with dP_dt := change / 1.5 }
    else { g with dP_dt := change / 2.5 }
  else if g.minuteCount = 125 then
    let lastPressureAvg := getLastPressureSamplesAverage g
    let g := { g with pressureAvg2 := lastPressureAvg }
    let change := (lastPressureAvg - g.pressureAvg) * CONVERSION_FACTOR
    if g.firstRound then { g with dP_dt := change / 2 }
    else { g with dP_dt := change / 3 }
  else if g.minuteCount = 155 then
    let lastPressureAvg := getLastPressureSamplesAverage g
    let change := (lastPressureAvg - g.pressureAvg) * CONVERSION_FACTOR
    if g.firstRound then { g with dP_dt := change / 2.5 }
    else { g with dP_dt := change / 3.5 }
  else if g.minuteCount = 185 then
    let lastPressureAvg := getLastPressureSamplesAverage g
    let change := (lastPressureAvg - g.pressureAvg) * CONVERSION_FACTOR
    let g := if g.firstRound then { g with dP_dt := change / 3 }
      else { g with dP_dt := change / 4 }
    let g := { g with pressureAvg := g.pressureAvg2 }
    { g with firstRound := false }
  else g

/-- The milestone divisor table of the spec: what `dP_dt` becomes at a rate
milestone, from `change = (average now - reference average) * 0.1`, in the
first cycle (`firstRound`) and in the later cycles. -/
def tableRate (minuteCount : Nat) (firstRound : Bool) (change : ℚ) : ℚ :=
  if minuteCount = 35 then (if firstRound then change * 2 else change / 1.5)
  else if minuteCount = 65 then (if firstRound then change / 1 else change / 2)
  else if minuteCount = 95 then (if firstRound then change / 1.5 else change / 2.5)
  else if minuteCount = 125 then (if firstRound then change / 2 else change / 3)
  else if minuteCount = 155 then (if firstRound then change / 2.5 else change / 3.5)
  else (if firstRound then change / 3 else change / 4)

/-- The pressures given to the first `n` calls of `sample`, when `pressure k`
is the sample given to the call number `k`, calls being counted from 1. -/
def firstCalls (pressure : Nat → ℚ) (n : Nat) : List ℚ :=
  (List.range n).map (fun k => pressure (k + 1))

/-- The globals after the first `n` calls of `sample` since program start. -/
def globalsAfterCall (pressure : Nat → ℚ) (n : Nat) : Globals :=
  globalsAfter initial (firstCalls pressure n)

/-- The value returned by the call number `n` of `sample`, for `n ≥ 1`. -/
def returnedByCall (pressure : Nat → ℚ) (n : Nat) : Int :=
  (sample (globalsAfterCall pressure (n - 1)) (pressure n)).1

/-- The value `minuteCount` has after `n` calls according to the schedule of
the counter: `n` up to 185, then round and round from 6 to 185. -/
def counterSchedule (n : Nat) : Nat :=
  if n ≤ 185 then n else 6 + (n - 186) % 180

/-- Whether a value of `minuteCount` is one at which `sample` computes `dP_dt`. -/
def isRateMilestone (minuteCount : Nat) : Bool :=
  minuteCount = 35 ∨ minuteCount = 65 ∨ minuteCount = 95 ∨ minuteCount = 125 ∨
    minuteCount = 155 ∨ minuteCount = 185

/-- The mean of the samples given to the five calls that end with call `n`. -/
def meanOfLastFive (pressure : Nat → ℚ) (n : Nat) : ℚ :=
  (pressure (n - 4) + pressure (n - 3) + pressure (n - 2) + pressure (n - 1) + pressure n) / 5

end WeatherForecast

namespace ThresholdUtil

/-! ### Basic facts about one check -/

theorem abs_eq_abs (x : ℚ) : ThresholdUtil.abs x = |x| := by
  unfold ThresholdUtil.abs
  split_ifs with h
  · exact (abs_of_pos h).symm
  · exact (abs_of_nonpos (not_lt.mp h)).symm

/-- A node that is not due is returned as it is and no callback is called. -/
theorem check_not_due {σ : Type} (aSensor : ThresholdedSensorStruct) (timeStamp : Nat)
    (aCallBack : SensorValueRequestedCallback σ)
    (transmissionCallback : SensorValueTransmission σ) (env : σ)
    (h : timeStamp < aSensor.lastChecked) :
    checkIndividualThreshHoldedSensor aSensor timeStamp aCallBack transmissionCallback env
      = { nodes := aSensor, env := env, calls := [] } := by
  unfold checkIndividualThreshHoldedSensor
  rw [if_neg (Nat.not_le.mpr h)]

/-- A due node whose new value is at least `threshHold` away from `lastValue`. -/
theorem check_due_threshold {σ : Type} (aSensor : ThresholdedSensorStruct) (timeStamp : Nat)
    (aCallBack : SensorValueRequestedCallback σ)
    (transmissionCallback : SensorValueTransmission σ) (env : σ)
    (hdue : aSensor.lastChecked ≤ timeStamp)
    (hthr : aSensor.threshHold ≤
      |aSensor.lastValue - (aCallBack env aSensor.sensor_id aSensor.sensor_type).1|) :
    checkIndividualThreshHoldedSensor aSensor timeStamp aCallBack transmissionCallback env
      = { nodes := { aSensor with
                      measureCounter := 0
                      lastChecked :=
                        (timeStamp + (aSensor.readingInterval * 1000) % ULONG_MOD) % ULONG_MOD
                      lastValue := (aCallBack env aSensor.sensor_id aSensor.sensor_type).1 }
          env := transmissionCallback (aCallBack env aSensor.sensor_id aSensor.sensor_type).2
            aSensor.child_id aSensor.sensor_id aSensor.sensor_type
            (aCallBack env aSensor.sensor_id aSensor.sensor_type).1
          calls := [CallbackEvent.valueRequested aSensor.sensor_id aSensor.sensor_type,
            CallbackEvent.valueTransmission aSensor.child_id aSensor.sensor_id
              aSensor.sensor_type (aCallBack env aSensor.sensor_id aSensor.sensor_type).1] } := by
  unfold checkIndividualThreshHoldedSensor
  rw [if_pos hdue]
  simp only [abs_eq_abs]
  rw [if_pos (Or.inl hthr)]

/-- A due node whose counter reaches `forcedTransmissionInterval`. -/
theorem check_due_forced {σ : Type} (aSensor : ThresholdedSensorStruct) (timeStamp : Nat)
    (aCallBack : SensorValueRequestedCallback σ)
    (transmissionCallback : SensorValueTransmission σ) (env : σ)
    (hdue : aSensor.lastChecked ≤ timeStamp)
    (hcnt : (aSensor.measureCounter + 1) % 256 = aSensor.forcedTransmissionInterval) :
    checkIndividualThreshHoldedSensor aSensor timeStamp aCallBack transmissionCallback env
      = { nodes := { aSensor with
                      measureCounter := 0
                      lastChecked :=
                        (timeStamp + (aSensor.readingInterval * 1000) % ULONG_MOD) % ULONG_MOD
                      lastValue := (aCallBack env aSensor.sensor_id aSensor.sensor_type).1 }
          env := transmissionCallback (aCallBack env aSensor.sensor_id aSensor.sensor_type).2
            aSensor.child_id aSensor.sensor_id aSensor.sensor_type
            (aCallBack env aSensor.sensor_id aSensor.sensor_type).1
          calls := [CallbackEvent.valueRequested aSensor.sensor_id aSensor.sensor_type,
            CallbackEvent.valueTransmission aSensor.child_id aSensor.sensor_id
              aSensor.sensor_type (aCallBack env aSensor.sensor_id aSensor.sensor_type).1] } := by
  unfold checkIndividualThreshHoldedSensor
  rw [if_pos hdue]
  simp only []
  rw [if_pos (Or.inr hcnt)]

/-- A due node with a value closer than `threshHold` and a counter that does
not reach `forcedTransmissionInterval`. -/
theorem check_due_quiet {σ : Type} (aSensor : ThresholdedSensorStruct) (timeStamp : Nat)
    (aCallBack : SensorValueRequestedCallback σ)
    (transmissionCallback : SensorValueTransmission σ) (env : σ)
    (hdue : aSensor.lastChecked ≤ timeStamp)
    (hthr : |aSensor.lastValue - (aCallBack env aSensor.sensor_id aSensor.sensor_type).1|
      < aSensor.threshHold)
    (hcnt : (aSensor.measureCounter + 1) % 256 ≠ aSensor.forcedTransmissionInterval) :
    checkIndividualThreshHoldedSensor aSensor timeStamp aCallBack transmissionCallback env
      = { nodes := { aSensor with
                      measureCounter := (aSensor.measureCounter + 1) % 256
                      lastChecked :=
                        (timeStamp + (aSensor.readingInterval * 1000) % ULONG_MOD) % ULONG_MOD }
          env := (aCallBack env aSensor.sensor_id aSensor.sensor_type).2
          calls := [CallbackEvent.valueRequested aSensor.sensor_id aSensor.sensor_type] } := by
  unfold checkIndividualThreshHoldedSensor
  rw [if_pos hdue]
  simp only [abs_eq_abs]
  rw [if_neg]
  rintro (h | h)
  · exact absurd hthr (not_lt.mpr h)
  · exact hcnt h

/-! ### Basic facts about one poll -/

theorem checkThresholdedSensors_eq_checkRemaining {σ : Type}
    (root : List ThresholdedSensorStruct) (millis : Nat)
    (aCallBack : SensorValueRequestedCallback σ)
    (transmissionCallback : SensorValueTransmission σ) (env : σ) :
    checkThresholdedSensors root millis aCallBack transmissionCallback env
      = checkRemaining millis aCallBack transmissionCallback root env := by
  cases root <;> rfl

theorem checkRemaining_append {σ : Type} (timeStamp : Nat)
    (aCallBack : SensorValueRequestedCallback σ)
    (transmissionCallback : SensorValueTransmission σ)
    (front back : List ThresholdedSensorStruct) (env : σ) :
    checkRemaining timeStamp aCallBack transmissionCallback (front ++ back) env
      = { nodes := (checkRemaining timeStamp aCallBack transmissionCallback front env).nodes ++
            (checkRemaining timeStamp aCallBack transmissionCallback back
              (checkRemaining timeStamp aCallBack transmissionCallback front env).env).nodes
          env := (checkRemaining timeStamp aCallBack transmissionCallback back
              (checkRemaining timeStamp aCallBack transmissionCallback front env).env).env
          calls := (checkRemaining timeStamp aCallBack transmissionCallback front env).calls ++
            (checkRemaining timeStamp aCallBack transmissionCallback back
              (checkRemaining timeStamp aCallBack transmissionCallback front env).env).calls } := by
  induction front generalizing env with
  | nil => simp [checkRemaining]
  | cons node rest ih => simp [checkRemaining, ih]

/-- A poll of a list split around one node: the nodes before it, the node, the
nodes after it, each started in the environment left by the one before. -/
theorem checkThresholdedSensors_split {σ : Type} (front back : List ThresholdedSensorStruct)
    (aSensor : ThresholdedSensorStruct) (millis : Nat)
    (aCallBack : SensorValueRequestedCallback σ)
    (transmissionCallback : SensorValueTransmission σ) (env : σ) :
    checkThresholdedSensors (front ++ aSensor :: back) millis aCallBack transmissionCallback env
      = { nodes :=
            (checkThresholdedSensors front millis aCallBack transmissionCallback env).nodes ++
            (checkIndividualThreshHoldedSensor aSensor millis aCallBack transmissionCallback
              (checkThresholdedSensors front millis aCallBack transmissionCallback env).env).nodes
            :: (checkThresholdedSensors back millis aCallBack transmissionCallback
              (checkIndividualThreshHoldedSensor aSensor millis aCallBack transmissionCallback
                (checkThresholdedSensors front millis aCallBack transmissionCallback
                  env).env).env).nodes
          env := (checkThresholdedSensors back millis aCallBack transmissionCallback
              (checkIndividualThreshHoldedSensor aSensor millis aCallBack transmissionCallback
                (checkThresholdedSensors front millis aCallBack transmissionCallback
                  env).env).env).env
          calls :=
            (checkThresholdedSensors front millis aCallBack transmissionCallback env).calls ++
            ((checkIndividualThreshHoldedSensor aSensor millis aCallBack transmissionCallback
              (checkThresholdedSensors front millis aCallBack transmissionCallback env).env).calls
            ++ (checkThresholdedSensors back millis aCallBack transmissionCallback
              (checkIndividualThreshHoldedSensor aSensor millis aCallBack transmissionCallback
                (checkThresholdedSensors front millis aCallBack transmissionCallback
                  env).env).env).calls) } := by
  simp only [checkThresholdedSensors_eq_checkRemaining, checkRemaining_append, checkRemaining]

theorem checkRemaining_length {σ : Type} (timeStamp : Nat)
    (aCallBack : SensorValueRequestedCallback σ)
    (transmissionCallback : SensorValueTransmission σ)
    (root : List ThresholdedSensorStruct) (env : σ) :
    (checkRemaining timeStamp aCallBack transmissionCallback root env).nodes.length
      = root.length := by
  induction root generalizing env with
  | nil => rfl
  | cons node rest ih => simp [checkRemaining, ih]

theorem checkThresholdedSensors_length {σ : Type} (root : List ThresholdedSensorStruct)
    (millis : Nat) (aCallBack : SensorValueRequestedCallback σ)
    (transmissionCallback : SensorValueTransmission σ) (env : σ) :
    (checkThresholdedSensors root millis aCallBack transmissionCallback env).nodes.length
      = root.length := by
  rw [checkThresholdedSensors_eq_checkRemaining, checkRemaining_length]

/-! ### Registration -/

theorem linkAtEnd_eq_append (aSensor node : ThresholdedSensorStruct)
    (rest : List ThresholdedSensorStruct) :
    linkAtEnd aSensor node rest = (node :: rest) ++ [aSensor] := by
  induction rest generalizing node with
  | nil => rfl
  | cons next rest ih => simp [linkAtEnd, ih]

theorem registerThresholdedSensor_eq_append (root : List ThresholdedSensorStruct) (millis : Nat)
    (child_id sensor_id : Nat) (sensor_type : ThreshHoldedSensorType)
    (threshHold : ℚ) (readingInterval forcedTransmissionInterval : Nat) :
    registerThresholdedSensor root millis child_id sensor_id sensor_type threshHold
        readingInterval forcedTransmissionInterval
      = root ++ [newNode millis child_id sensor_id sensor_type threshHold readingInterval
          forcedTransmissionInterval] := by
  cases root with
  | nil => rfl
  | cons node rest => simp [registerThresholdedSensor, linkAtEnd_eq_append]

theorem newNode_measureCounter (millis : Nat) (child_id sensor_id : Nat)
    (sensor_type : ThreshHoldedSensorType) (threshHold : ℚ)
    (readingInterval forcedTransmissionInterval : Nat) :
    (newNode millis child_id sensor_id sensor_type threshHold readingInterval
        forcedTransmissionInterval).measureCounter
      = (forcedTransmissionInterval + 255) % 256 := by
  simp only [newNode]
  omega

/-! ### The claims about one poll and about registration -/

/-- C1: a due node that is answered with a value at least `threshHold` away
from `lastValue` (equality included) makes the poll call the transmission
callback with `(child_id, sensor_id, sensor_type, value)` right after the
value request, and leaves the node with `lastValue = value` and
`measureCounter = 0`, whatever `measureCounter` and
`forcedTransmissionInterval` were. -/
theorem C1_threshold_reached_is_reported {σ : Type}
    (front back : List ThresholdedSensorStruct) (aSensor : ThresholdedSensorStruct)
    (millis : Nat) (aCallBack : SensorValueRequestedCallback σ)
    (transmissionCallback : SensorValueTransmission σ) (env : σ) :
    let before := checkThresholdedSensors front millis aCallBack transmissionCallback env
    let value := (aCallBack before.env aSensor.sensor_id aSensor.sensor_type).1
    let here := checkIndividualThreshHoldedSensor aSensor millis aCallBack
      transmissionCallback before.env
    let after := checkThresholdedSensors back millis aCallBack transmissionCallback here.env
    let poll := checkThresholdedSensors (front ++ aSensor :: back) millis aCallBack
      transmissionCallback env
    aSensor.lastChecked ≤ millis →
    aSensor.threshHold ≤ |aSensor.lastValue - value| →
      here.calls = [CallbackEvent.valueRequested aSensor.sensor_id aSensor.sensor_type,
        CallbackEvent.valueTransmission aSensor.child_id aSensor.sensor_id
          aSensor.sensor_type value] ∧
      here.nodes.lastValue = value ∧
      here.nodes.measureCounter = 0 ∧
      before.nodes.length = front.length ∧
      poll.nodes = before.nodes ++ here.nodes :: after.nodes ∧
      poll.calls = before.calls ++ (here.calls ++ after.calls) := by
  intro before value here after poll hdue hthr
  have hhere := check_due_threshold aSensor millis aCallBack transmissionCallback before.env
    hdue hthr
  have hpoll := checkThresholdedSensors_split front back aSensor millis aCallBack
    transmissionCallback env
  refine ⟨?_, ?_, ?_, ?_, ?_, ?_⟩
  · simp only [here, hhere, value]
  · simp only [here, hhere, value]
  · simp only [here, hhere]
  · exact checkThresholdedSensors_length front millis aCallBack transmissionCallback env
  · simp only [poll, hpoll, before, here, after]
  · simp only [poll, hpoll, before, here, after]

/-- C4: a node whose `lastChecked` is later than the time stamp of the poll is
returned with every field unchanged, and the poll makes no callback call for
it: the environment goes from the nodes before it to the nodes after it
untouched, and the calls of the poll are those of the other nodes. -/
theorem C4_not_due_is_skipped {σ : Type}
    (front back : List ThresholdedSensorStruct) (aSensor : ThresholdedSensorStruct)
    (millis : Nat) (aCallBack : SensorValueRequestedCallback σ)
    (transmissionCallback : SensorValueTransmission σ) (env : σ) :
    let before := checkThresholdedSensors front millis aCallBack transmissionCallback env
    let after := checkThresholdedSensors back millis aCallBack transmissionCallback before.env
    let poll := checkThresholdedSensors (front ++ aSensor :: back) millis aCallBack
      transmissionCallback env
    millis < aSensor.lastChecked →
      checkIndividualThreshHoldedSensor aSensor millis aCallBack transmissionCallback
          before.env = { nodes := aSensor, env := before.env, calls := [] } ∧
      before.nodes.length = front.length ∧
      poll.nodes = before.nodes ++ aSensor :: after.nodes ∧
      poll.env = after.env ∧
      poll.calls = before.calls ++ after.calls := by
  intro before after poll hlate
  have hhere := check_not_due aSensor millis aCallBack transmissionCallback before.env hlate
  have hpoll := checkThresholdedSensors_split front back aSensor millis aCallBack
    transmissionCallback env
  refine ⟨hhere, ?_, ?_, ?_, ?_⟩
  · exact checkThresholdedSensors_length front millis aCallBack transmissionCallback env
  · simp only [poll, hpoll, before, after, hhere]
  · simp only [poll, hpoll, before, after, hhere]
  · simp only [poll, hpoll, before, after, hhere, List.nil_append]

/-- C6: `registerThresholdedSensor` returns the old list, unchanged and in the
same order, followed by one new last node whose configuration fields are the
arguments, with `lastValue = 0`, `measureCounter` equal to
`forcedTransmissionInterval - 1` as a `uint8_t` and `lastChecked = millis()`;
every check of that node with a time stamp not before `millis()` finds it due
and requests its value. -/
theorem C6_register_appends (root : List ThresholdedSensorStruct) (millis : Nat)
    (child_id sensor_id : Nat) (sensor_type : ThreshHoldedSensorType)
    (threshHold : ℚ) (readingInterval forcedTransmissionInterval : Nat) :
    ∃ aSensor : ThresholdedSensorStruct,
      registerThresholdedSensor root millis child_id sensor_id sensor_type threshHold
        readingInterval forcedTransmissionInterval = root ++ [aSensor] ∧
      aSensor = { child_id := child_id
                  sensor_id := sensor_id
                  sensor_type := sensor_type
                  threshHold := threshHold
                  forcedTransmissionInterval := forcedTransmissionInterval
                  measureCounter := (forcedTransmissionInterval + 255) % 256
                  lastValue := 0
                  lastChecked := millis
                  readingInterval := readingInterval } ∧
      ∀ (σ : Type) (timeStamp : Nat) (aCallBack : SensorValueRequestedCallback σ)
        (transmissionCallback : SensorValueTransmission σ) (env : σ), millis ≤ timeStamp →
        aSensor.lastChecked ≤ timeStamp ∧
        (checkIndividualThreshHoldedSensor aSensor timeStamp aCallBack transmissionCallback
          env).calls.head? = some (CallbackEvent.valueRequested sensor_id sensor_type) := by
  refine ⟨newNode millis child_id sensor_id sensor_type threshHold readingInterval
    forcedTransmissionInterval, ?_, ?_, ?_⟩
  · exact registerThresholdedSensor_eq_append root millis child_id sensor_id sensor_type
      threshHold readingInterval forcedTransmissionInterval
  · have h := newNode_measureCounter millis child_id sensor_id sensor_type threshHold
      readingInterval forcedTransmissionInterval
    simp only [newNode] at h ⊢
    rw [h]
  · intro σ timeStamp aCallBack transmissionCallback env hle
    have hdue : (newNode millis child_id sensor_id sensor_type threshHold readingInterval
        forcedTransmissionInterval).lastChecked ≤ timeStamp := hle
    refine ⟨hdue, ?_⟩
    unfold checkIndividualThreshHoldedSensor
    rw [if_pos hdue]
    simp only []
    split_ifs <;> rfl

/-- C1 at a list of two nodes polled at 1000: the first is not due, the second
is due, last reported 0, has threshold 2 and is answered 5. -/
theorem C1_threshold_reached_is_reported_witness :
    ((1000 : Nat) ≤ 1000 ∧ (2 : ℚ) ≤ |0 - 5|) ∧
    (checkThresholdedSensors
        ([{ child_id := 1, sensor_id := 6
            sensor_type := ThreshHoldedSensorType.HUMIDTY_SENSOR
            threshHold := 1, forcedTransmissionInterval := 4, measureCounter := 1
            lastValue := 40, lastChecked := 2000, readingInterval := 5 }] ++
          { child_id := 1, sensor_id := 7
            sensor_type := ThreshHoldedSensorType.TEMPERATURE_SENSOR
            threshHold := 2, forcedTransmissionInterval := 3, measureCounter := 0
            lastValue := 0, lastChecked := 1000, readingInterval := 1 } :: [])
        1000 scriptedCallBack scriptedTransmission [5]).calls
      = [CallbackEvent.valueRequested 7 ThreshHoldedSensorType.TEMPERATURE_SENSOR,
         CallbackEvent.valueTransmission 1 7 ThreshHoldedSensorType.TEMPERATURE_SENSOR 5] := by
  have h := C1_threshold_reached_is_reported
    [{ child_id := 1, sensor_id := 6
       sensor_type := ThreshHoldedSensorType.HUMIDTY_SENSOR
       threshHold := 1, forcedTransmissionInterval := 4, measureCounter := 1
       lastValue := 40, lastChecked := 2000, readingInterval := 5 }] []
    { child_id := 1, sensor_id := 7
      sensor_type := ThreshHoldedSensorType.TEMPERATURE_SENSOR
      threshHold := 2, forcedTransmissionInterval := 3, measureCounter := 0
      lastValue := 0, lastChecked := 1000, readingInterval := 1 }
    1000 scriptedCallBack scriptedTransmission [5] (by decide) (by decide!)
  refine ⟨⟨by decide, by decide!⟩, ?_⟩
  rw [h.2.2.2.2.2, h.1]
  decide!

/-- C4 at a list of two nodes polled at 1500: the first is due, the second,
with `lastChecked = 2000`, is not. -/
theorem C4_not_due_is_skipped_witness :
    (1500 : Nat) < 2000 ∧
    (checkThresholdedSensors
        ([{ child_id := 1, sensor_id := 7
            sensor_type := ThreshHoldedSensorType.TEMPERATURE_SENSOR
            threshHold := 2, forcedTransmissionInterval := 3, measureCounter := 0
            lastValue := 0, lastChecked := 1000, readingInterval := 1 }] ++
          { child_id := 1, sensor_id := 6
            sensor_type := ThreshHoldedSensorType.HUMIDTY_SENSOR
            threshHold := 1, forcedTransmissionInterval := 4, measureCounter := 1
            lastValue := 40, lastChecked := 2000, readingInterval := 5 } :: [])
        1500 scriptedCallBack scriptedTransmission [5]).nodes.get? 1
      = some { child_id := 1, sensor_id := 6
               sensor_type := ThreshHoldedSensorType.HUMIDTY_SENSOR
               threshHold := 1, forcedTransmissionInterval := 4, measureCounter := 1
               lastValue := 40, lastChecked := 2000, readingInterval := 5 } := by
  have h := C4_not_due_is_skipped
    [{ child_id := 1, sensor_id := 7
       sensor_type := ThreshHoldedSensorType.TEMPERATURE_SENSOR
       threshHold := 2, forcedTransmissionInterval := 3, measureCounter := 0
       lastValue := 0, lastChecked := 1000, readingInterval := 1 }] []
    { child_id := 1, sensor_id := 6
      sensor_type := ThreshHoldedSensorType.HUMIDTY_SENSOR
      threshHold := 1, forcedTransmissionInterval := 4, measureCounter := 1
      lastValue := 40, lastChecked := 2000, readingInterval := 5 }
    1500 scriptedCallBack scriptedTransmission [5] (by decide)
  refine ⟨by decide, ?_⟩
  rw [h.2.2.1]
  decide!

/-- C6 at the registration of a second sensor at time 250, checked at 300. -/
theorem C6_register_appends_witness :
    (250 : Nat) ≤ 300 ∧
    ∃ aSensor : ThresholdedSensorStruct,
      registerThresholdedSensor
        [{ child_id := 1, sensor_id := 7
           sensor_type := ThreshHoldedSensorType.TEMPERATURE_SENSOR
           threshHold := 2, forcedTransmissionInterval := 3, measureCounter := 0
           lastValue := 0, lastChecked := 1000, readingInterval := 1 }]
        250 1 6 ThreshHoldedSensorType.HUMIDTY_SENSOR 1 5 4
      = [{ child_id := 1, sensor_id := 7
           sensor_type := ThreshHoldedSensorType.TEMPERATURE_SENSOR
           threshHold := 2, forcedTransmissionInterval := 3, measureCounter := 0
           lastValue := 0, lastChecked := 1000, readingInterval := 1 }] ++ [aSensor] ∧
      aSensor.measureCounter = 3 ∧
      (checkIndividualThreshHoldedSensor aSensor 300 scriptedCallBack scriptedTransmission
        [41]).calls.head?
        = some (CallbackEvent.valueRequested 6 ThreshHoldedSensorType.HUMIDTY_SENSOR) := by
  obtain ⟨aSensor, happ, hnode, hdue⟩ := C6_register_appends
    [{ child_id := 1, sensor_id := 7
       sensor_type := ThreshHoldedSensorType.TEMPERATURE_SENSOR
       threshHold := 2, forcedTransmissionInterval := 3, measureCounter := 0
       lastValue := 0, lastChecked := 1000, readingInterval := 1 }]
    250 1 6 ThreshHoldedSensorType.HUMIDTY_SENSOR 1 5 4
  exact ⟨by decide, aSensor, happ, by rw [hnode],
    (hdue (List ℚ) 300 scriptedCallBack scriptedTransmission [41] (by decide)).2⟩

/-! ### Runs of successive checks below the threshold -/

theorem checkSuccessively_length {σ : Type} (aCallBack : SensorValueRequestedCallback σ)
    (transmissionCallback : SensorValueTransmission σ) (aSensor : ThresholdedSensorStruct)
    (steps : List (Nat × σ)) :
    (checkSuccessively aCallBack transmissionCallback aSensor steps).length = steps.length := by
  induction steps generalizing aSensor with
  | nil => rfl
  | cons step steps ih => simp [checkSuccessively, ih]

/-- The number of measurements from one forced report to the next: `256` for a
`forcedTransmissionInterval` of `0`, because the `uint8_t` counter has to wrap. -/
theorem forced_step_cases (c F P : Nat) (hP : P = if F = 0 then 256 else F) (hF : F < 256)
    (hc : c < P) :
    ((c + 1) % 256 = F ∧ (c + 1) % P = 0) ∨
    ((c + 1) % 256 ≠ F ∧ (c + 1) % 256 = c + 1 ∧ c + 1 < P ∧ (c + 1) % P ≠ 0) := by
  by_cases h0 : F = 0
  · subst h0
    simp only [if_true] at hP
    subst hP
    omega
  · rw [if_neg h0] at hP
    subst hP
    have h256 : (c + 1) % 256 = c + 1 := Nat.mod_eq_of_lt (by omega)
    by_cases he : c + 1 = P
    · left
      rw [h256, he]
      exact ⟨rfl, Nat.mod_self P⟩
    · right
      have hlt : c + 1 < P := by omega
      refine ⟨by omega, h256, hlt, ?_⟩
      rw [Nat.mod_eq_of_lt hlt]
      omega

/-- Core of the forced-report schedule: from a counter `c` below the period
`P`, in a run of due checks that all stay below the threshold, the check number
`k` (from `0`) reports exactly when `c + k + 1` is a multiple of `P`. -/
theorem reported_of_dueAndBelowThreshold {σ : Type}
    (aCallBack : SensorValueRequestedCallback σ)
    (transmissionCallback : SensorValueTransmission σ) (P : Nat)
    (steps : List (Nat × σ)) (aSensor : ThresholdedSensorStruct)
    (hP : P = if aSensor.forcedTransmissionInterval = 0 then 256
      else aSensor.forcedTransmissionInterval)
    (hF : aSensor.forcedTransmissionInterval < 256)
    (hc : aSensor.measureCounter < P)
    (hq : DueAndBelowThreshold aCallBack transmissionCallback aSensor steps) :
    (checkSuccessively aCallBack transmissionCallback aSensor steps).map Outcome.reported
      = (List.range steps.length).map
          (fun k => decide ((aSensor.measureCounter + k + 1) % P = 0)) := by
  induction steps generalizing aSensor with
  | nil => rfl
  | cons step steps ih =>
    obtain ⟨hdue, hthr, hrest⟩ := hq
    rw [List.length_cons, List.range_succ_eq_map, List.map_cons, List.map_map]
    simp only [checkSuccessively, List.map_cons]
    rcases forced_step_cases aSensor.measureCounter aSensor.forcedTransmissionInterval P hP hF hc
      with ⟨heq, hmod⟩ | ⟨hne, h256, hlt, hmod⟩
    · have hstep := check_due_forced aSensor step.1 aCallBack transmissionCallback step.2
        hdue heq
      have hnode := congrArg Outcome.nodes hstep
      have hcalls := congrArg Outcome.calls hstep
      simp only [] at hnode hcalls
      have hPpos : 0 < P := by omega
      rw [ih _ (by rw [hnode]; exact hP) (by rw [hnode]; exact hF) (by rw [hnode]; exact hPpos)
        hrest]
      refine List.cons_eq_cons.mpr ⟨?_, ?_⟩
      · simp [Outcome.reported, hcalls, CallbackEvent.isTransmission, hmod]
      · refine List.map_congr_left ?_
        intro k _
        simp only [Function.comp, Nat.succ_eq_add_one, Nat.zero_add, hnode]
        have : (aSensor.measureCounter + (k + 1) + 1) % P = (k + 1) % P := by
          have e : aSensor.measureCounter + (k + 1) + 1
              = (aSensor.measureCounter + 1) + (k + 1) := by omega
          rw [e, Nat.add_mod, hmod, Nat.zero_add, Nat.mod_mod]
        rw [this]
    · have hstep := check_due_quiet aSensor step.1 aCallBack transmissionCallback step.2
        hdue hthr hne
      have hnode := congrArg Outcome.nodes hstep
      have hcalls := congrArg Outcome.calls hstep
      simp only [] at hnode hcalls
      have hc2 : (aSensor.measureCounter + 1) % 256 < P := by omega
      rw [ih _ (by rw [hnode]; exact hP) (by rw [hnode]; exact hF) (by rw [hnode]; exact hc2)
        hrest]
      refine List.cons_eq_cons.mpr ⟨?_, ?_⟩
      · simp [Outcome.reported, hcalls, CallbackEvent.isTransmission, hmod]
      · refine List.map_congr_left ?_
        intro k _
        simp only [Function.comp, Nat.succ_eq_add_one, h256, hnode]
        have e : aSensor.measureCounter + (k + 1) + 1
            = aSensor.measureCounter + 1 + k + 1 := by omega
        rw [e]

/-! ### The claims about the forced-report schedule -/

/-- C2, as stated, fails: a sensor registered with threshold 2, reading
interval 1 s and forced interval 3, polled once a second with the sensor always
showing 0, is reported on the polls number 1, 4 and 7 and not on the polls
number 3, 6 and 9. -/
theorem C2_counterexample :
    (loop scriptedCallBack scriptedTransmission
        (registerThresholdedSensor [] 0 1 7 ThreshHoldedSensorType.TEMPERATURE_SENSOR 2 1 3)
        [1000, 2000, 3000, 4000, 5000, 6000, 7000, 8000, 9000] []).map Outcome.reported
      = [true, false, false, true, false, false, true, false, false] := by
  decide!

/-- C2 (amended): for a node as `registerThresholdedSensor` builds it, with
`forcedTransmissionInterval` F between 2 and 255, in every run of due checks
whose values all stay closer than `threshHold` to `lastValue`, the check number
`k` (counted from 0, so the measurement number `k + 1`) reports exactly when
`k` is a multiple of F: reports are sent on the measurements 1, F + 1,
2F + 1, ... and on no others. -/
theorem C2_forced_reports_after_registration {σ : Type}
    (aCallBack : SensorValueRequestedCallback σ)
    (transmissionCallback : SensorValueTransmission σ)
    (millis child_id sensor_id : Nat) (sensor_type : ThreshHoldedSensorType)
    (threshHold : ℚ) (readingInterval forcedTransmissionInterval : Nat)
    (steps : List (Nat × σ))
    (hF2 : 2 ≤ forcedTransmissionInterval) (hF : forcedTransmissionInterval < 256)
    (hq : DueAndBelowThreshold aCallBack transmissionCallback
      (newNode millis child_id sensor_id sensor_type threshHold readingInterval
        forcedTransmissionInterval) steps) :
    (checkSuccessively aCallBack transmissionCallback
        (newNode millis child_id sensor_id sensor_type threshHold readingInterval
          forcedTransmissionInterval) steps).map Outcome.reported
      = (List.range steps.length).map (fun k => decide (k % forcedTransmissionInterval = 0)) := by
  have hcnt := newNode_measureCounter millis child_id sensor_id sensor_type threshHold
    readingInterval forcedTransmissionInterval
  have hcnt2 : (newNode millis child_id sensor_id sensor_type threshHold readingInterval
      forcedTransmissionInterval).measureCounter = forcedTransmissionInterval - 1 := by
    rw [hcnt]; omega
  have hP : forcedTransmissionInterval =
      if (newNode millis child_id sensor_id sensor_type threshHold readingInterval
        forcedTransmissionInterval).forcedTransmissionInterval = 0 then 256
      else (newNode millis child_id sensor_id sensor_type threshHold readingInterval
        forcedTransmissionInterval).forcedTransmissionInterval := by
    have h0 : (newNode millis child_id sensor_id sensor_type threshHold readingInterval
      forcedTransmissionInterval).forcedTransmissionInterval = forcedTransmissionInterval := rfl
    rw [h0, if_neg (by omega)]
  rw [reported_of_dueAndBelowThreshold aCallBack transmissionCallback forcedTransmissionInterval
    steps _ hP hF (by rw [hcnt2]; omega) hq]
  refine List.map_congr_left ?_
  intro k _
  have e : (newNode millis child_id sensor_id sensor_type threshHold readingInterval
      forcedTransmissionInterval).measureCounter + k + 1 = k + forcedTransmissionInterval := by
    rw [hcnt2]; omega
  rw [e, Nat.add_mod_right]

/-- C3: a node with `forcedTransmissionInterval` F between 1 and 255 whose
counter is 0, as it is right after a report, checked F times when due, with
values that all stay closer than `threshHold` to `lastValue`: the first
F - 1 checks send nothing and the F-th check calls the transmission callback. -/
theorem C3_forced_interval_between_reports {σ : Type}
    (aCallBack : SensorValueRequestedCallback σ)
    (transmissionCallback : SensorValueTransmission σ)
    (aSensor : ThresholdedSensorStruct) (steps : List (Nat × σ))
    (hF1 : 1 ≤ aSensor.forcedTransmissionInterval)
    (hF : aSensor.forcedTransmissionInterval < 256)
    (hc : aSensor.measureCounter = 0)
    (hlen : steps.length = aSensor.forcedTransmissionInterval)
    (hq : DueAndBelowThreshold aCallBack transmissionCallback aSensor steps) :
    (checkSuccessively aCallBack transmissionCallback aSensor steps).map Outcome.reported
      = List.replicate (aSensor.forcedTransmissionInterval - 1) false ++ [true] := by
  have hP : aSensor.forcedTransmissionInterval =
      if aSensor.forcedTransmissionInterval = 0 then 256
      else aSensor.forcedTransmissionInterval := by
    rw [if_neg (by omega)]
  rw [reported_of_dueAndBelowThreshold aCallBack transmissionCallback
    aSensor.forcedTransmissionInterval steps aSensor hP hF (by omega) hq, hlen, hc]
  obtain ⟨n, hn⟩ : ∃ n, aSensor.forcedTransmissionInterval = n + 1 :=
    ⟨aSensor.forcedTransmissionInterval - 1, by omega⟩
  rw [hn, Nat.add_sub_cancel, List.range_succ, List.map_append]
  congr 1
  · rw [List.eq_replicate_iff]
    refine ⟨by simp, ?_⟩
    intro b hb
    obtain ⟨k, hk, rfl⟩ := List.mem_map.mp hb
    have hk2 : k < n := List.mem_range.mp hk
    have : (0 + k + 1) % (n + 1) = k + 1 := by
      rw [Nat.zero_add]; exact Nat.mod_eq_of_lt (by omega)
    rw [this]
    simp
  · simp

/-- C9, as stated, fails: a node registered with a forced interval of 0 has
its counter at 255, and its very first measurement, although below the
threshold, wraps the counter to 0, which equals the forced interval, and is
reported. -/
theorem C9_counterexample :
    (newNode 0 1 7 ThreshHoldedSensorType.TEMPERATURE_SENSOR 2 1 0).measureCounter = 255 ∧
    (loop scriptedCallBack scriptedTransmission
        (registerThresholdedSensor [] 0 1 7 ThreshHoldedSensorType.TEMPERATURE_SENSOR 2 1 0)
        [1000, 2000, 3000] []).map Outcome.calls
      = [[CallbackEvent.valueRequested 7 ThreshHoldedSensorType.TEMPERATURE_SENSOR,
          CallbackEvent.valueTransmission 1 7 ThreshHoldedSensorType.TEMPERATURE_SENSOR 0],
         [CallbackEvent.valueRequested 7 ThreshHoldedSensorType.TEMPERATURE_SENSOR],
         [CallbackEvent.valueRequested 7 ThreshHoldedSensorType.TEMPERATURE_SENSOR]] := by
  decide!

/-- C9 (amended): for a node as `registerThresholdedSensor` builds it with a
`forcedTransmissionInterval` of 0, in every run of due checks whose values all
stay closer than `threshHold` to `lastValue`, the check number `k` (counted
from 0) reports exactly when `k` is a multiple of 256: the first measurement
is reported, because the counter wraps from 255 to 0, none of the 255
measurements after a report is reported, and the 256th after it is. -/
theorem C9_zero_interval_reports_every_256 {σ : Type}
    (aCallBack : SensorValueRequestedCallback σ)
    (transmissionCallback : SensorValueTransmission σ)
    (millis child_id sensor_id : Nat) (sensor_type : ThreshHoldedSensorType)
    (threshHold : ℚ) (readingInterval : Nat) (steps : List (Nat × σ))
    (hq : DueAndBelowThreshold aCallBack transmissionCallback
      (newNode millis child_id sensor_id sensor_type threshHold readingInterval 0) steps) :
    (checkSuccessively aCallBack transmissionCallback
        (newNode millis child_id sensor_id sensor_type threshHold readingInterval 0)
        steps).map Outcome.reported
      = (List.range steps.length).map (fun k => decide (k % 256 = 0)) := by
  have hcnt : (newNode millis child_id sensor_id sensor_type threshHold readingInterval
      0).measureCounter = 255 := by
    rw [newNode_measureCounter]
  rw [reported_of_dueAndBelowThreshold aCallBack transmissionCallback 256 steps
    (newNode millis child_id sensor_id sensor_type threshHold readingInterval 0) rfl
    (by show 0 < 256; decide) (by rw [hcnt]; decide) hq]
  refine List.map_congr_left ?_
  intro k _
  rw [hcnt]
  have e : (255 + k + 1) % 256 = k % 256 := by omega
  rw [e]

/-- C3 at a node with forced interval 3 and counter 0 whose sensor always shows
0: nothing on the first two checks, a transmission on the third. -/
theorem C3_forced_interval_between_reports_witness :
    (1 ≤ 3 ∧ 3 < 256 ∧ 0 = 0 ∧
      [(1000, ([] : List ℚ)), (2000, []), (3000, [])].length = 3 ∧
      DueAndBelowThreshold scriptedCallBack scriptedTransmission
        { child_id := 1, sensor_id := 7
          sensor_type := ThreshHoldedSensorType.TEMPERATURE_SENSOR
          threshHold := 2, forcedTransmissionInterval := 3, measureCounter := 0
          lastValue := 0, lastChecked := 1000, readingInterval := 1 }
        [(1000, []), (2000, []), (3000, [])]) ∧
    (checkSuccessively scriptedCallBack scriptedTransmission
        { child_id := 1, sensor_id := 7
          sensor_type := ThreshHoldedSensorType.TEMPERATURE_SENSOR
          threshHold := 2, forcedTransmissionInterval := 3, measureCounter := 0
          lastValue := 0, lastChecked := 1000, readingInterval := 1 }
        [(1000, []), (2000, []), (3000, [])]).map Outcome.reported
      = [false, false, true] :=
  ⟨by decide!,
   C3_forced_interval_between_reports scriptedCallBack scriptedTransmission
    { child_id := 1, sensor_id := 7
      sensor_type := ThreshHoldedSensorType.TEMPERATURE_SENSOR
      threshHold := 2, forcedTransmissionInterval := 3, measureCounter := 0
      lastValue := 0, lastChecked := 1000, readingInterval := 1 }
    [(1000, []), (2000, []), (3000, [])]
    (by decide) (by decide) rfl rfl (by decide!)⟩

/-- C2 (amended) at a sensor registered with forced interval 3 whose sensor
always shows 0, polled once a second: reports on the measurements 1 and 4. -/
theorem C2_forced_reports_after_registration_witness :
    (2 ≤ 3 ∧ 3 < 256 ∧
      DueAndBelowThreshold scriptedCallBack scriptedTransmission
        (newNode 0 1 7 ThreshHoldedSensorType.TEMPERATURE_SENSOR 2 1 3)
        [(1000, []), (2000, []), (3000, []), (4000, [])]) ∧
    (checkSuccessively scriptedCallBack scriptedTransmission
        (newNode 0 1 7 ThreshHoldedSensorType.TEMPERATURE_SENSOR 2 1 3)
        [(1000, []), (2000, []), (3000, []), (4000, [])]).map Outcome.reported
      = [true, false, false, true] :=
  ⟨by decide!,
   C2_forced_reports_after_registration scriptedCallBack scriptedTransmission 0 1 7
    ThreshHoldedSensorType.TEMPERATURE_SENSOR 2 1 3
    [(1000, []), (2000, []), (3000, []), (4000, [])] (by decide) (by decide) (by decide!)⟩

/-- C9 (amended) at a sensor registered with forced interval 0 whose sensor
always shows 0: the first measurement is reported, the next two are not. -/
theorem C9_zero_interval_reports_every_256_witness :
    DueAndBelowThreshold scriptedCallBack scriptedTransmission
        (newNode 0 1 7 ThreshHoldedSensorType.TEMPERATURE_SENSOR 2 1 0)
        [(1000, []), (2000, []), (3000, [])] ∧
    (checkSuccessively scriptedCallBack scriptedTransmission
        (newNode 0 1 7 ThreshHoldedSensorType.TEMPERATURE_SENSOR 2 1 0)
        [(1000, []), (2000, []), (3000, [])]).map Outcome.reported
      = [true, false, false] :=
  ⟨by decide!,
   C9_zero_interval_reports_every_256 scriptedCallBack scriptedTransmission 0 1 7
    ThreshHoldedSensorType.TEMPERATURE_SENSOR 2 1
    [(1000, []), (2000, []), (3000, [])] (by decide!)⟩

/-! ### Time stamps: what a check does to `lastChecked` -/

/-- A check never changes the configuration fields of a node. -/
theorem check_configuration {σ : Type} (aSensor : ThresholdedSensorStruct) (timeStamp : Nat)
    (aCallBack : SensorValueRequestedCallback σ)
    (transmissionCallback : SensorValueTransmission σ) (env : σ) :
    (checkIndividualThreshHoldedSensor aSensor timeStamp aCallBack transmissionCallback
        env).nodes.readingInterval = aSensor.readingInterval ∧
    (checkIndividualThreshHoldedSensor aSensor timeStamp aCallBack transmissionCallback
        env).nodes.forcedTransmissionInterval = aSensor.forcedTransmissionInterval ∧
    (checkIndividualThreshHoldedSensor aSensor timeStamp aCallBack transmissionCallback
        env).nodes.threshHold = aSensor.threshHold ∧
    (checkIndividualThreshHoldedSensor aSensor timeStamp aCallBack transmissionCallback
        env).nodes.child_id = aSensor.child_id ∧
    (checkIndividualThreshHoldedSensor aSensor timeStamp aCallBack transmissionCallback
        env).nodes.sensor_id = aSensor.sensor_id ∧
    (checkIndividualThreshHoldedSensor aSensor timeStamp aCallBack transmissionCallback
        env).nodes.sensor_type = aSensor.sensor_type := by
  unfold checkIndividualThreshHoldedSensor
  simp only []
  split_ifs <;> exact ⟨rfl, rfl, rfl, rfl, rfl, rfl⟩

/-- A due node leaves the check with `lastChecked` set from the time stamp. -/
theorem check_due_lastChecked {σ : Type} (aSensor : ThresholdedSensorStruct) (timeStamp : Nat)
    (aCallBack : SensorValueRequestedCallback σ)
    (transmissionCallback : SensorValueTransmission σ) (env : σ)
    (hdue : aSensor.lastChecked ≤ timeStamp) :
    (checkIndividualThreshHoldedSensor aSensor timeStamp aCallBack transmissionCallback
        env).nodes.lastChecked
      = (timeStamp + (aSensor.readingInterval * 1000) % ULONG_MOD) % ULONG_MOD := by
  unfold checkIndividualThreshHoldedSensor
  rw [if_pos hdue]
  simp only []
  split_ifs <;> rfl

theorem lastChecked_no_overflow (timeStamp readingInterval : Nat)
    (h : timeStamp + readingInterval * 1000 < ULONG_MOD) :
    (timeStamp + (readingInterval * 1000) % ULONG_MOD) % ULONG_MOD
      = timeStamp + readingInterval * 1000 := by
  rw [Nat.mod_eq_of_lt (a := readingInterval * 1000) (by omega), Nat.mod_eq_of_lt h]

/-- A check that makes a callback call was made on a due node. -/
theorem due_of_calls_ne_nil {σ : Type} (aSensor : ThresholdedSensorStruct) (timeStamp : Nat)
    (aCallBack : SensorValueRequestedCallback σ)
    (transmissionCallback : SensorValueTransmission σ) (env : σ)
    (h : (checkIndividualThreshHoldedSensor aSensor timeStamp aCallBack transmissionCallback
      env).calls ≠ []) :
    aSensor.lastChecked ≤ timeStamp := by
  by_contra hlate
  rw [check_not_due aSensor timeStamp aCallBack transmissionCallback env (by omega)] at h
  exact h rfl

/-- Without overflow of the time stamp, a check never moves `lastChecked` back. -/
theorem check_lastChecked_mono {σ : Type} (aSensor : ThresholdedSensorStruct) (timeStamp : Nat)
    (aCallBack : SensorValueRequestedCallback σ)
    (transmissionCallback : SensorValueTransmission σ) (env : σ)
    (h : timeStamp + aSensor.readingInterval * 1000 < ULONG_MOD) :
    aSensor.lastChecked ≤
      (checkIndividualThreshHoldedSensor aSensor timeStamp aCallBack transmissionCallback
        env).nodes.lastChecked := by
  by_cases hdue : aSensor.lastChecked ≤ timeStamp
  · rw [check_due_lastChecked aSensor timeStamp aCallBack transmissionCallback env hdue,
      lastChecked_no_overflow _ _ h]
    omega
  · rw [check_not_due aSensor timeStamp aCallBack transmissionCallback env (by omega)]

/-- After a check of a node with a positive reading interval, without overflow
of the time stamp, the node is not due at the same time stamp. -/
theorem check_then_not_due {σ : Type} (aSensor : ThresholdedSensorStruct) (timeStamp : Nat)
    (aCallBack : SensorValueRequestedCallback σ)
    (transmissionCallback : SensorValueTransmission σ) (env : σ)
    (hpos : 1 ≤ aSensor.readingInterval)
    (h : timeStamp + aSensor.readingInterval * 1000 < ULONG_MOD) :
    timeStamp <
      (checkIndividualThreshHoldedSensor aSensor timeStamp aCallBack transmissionCallback
        env).nodes.lastChecked := by
  by_cases hdue : aSensor.lastChecked ≤ timeStamp
  · rw [check_due_lastChecked aSensor timeStamp aCallBack transmissionCallback env hdue,
      lastChecked_no_overflow _ _ h]
    omega
  · rw [check_not_due aSensor timeStamp aCallBack transmissionCallback env (by omega)]
    simpa using hdue

theorem checkRemaining_then_not_due {σ : Type} (timeStamp : Nat)
    (aCallBack : SensorValueRequestedCallback σ)
    (transmissionCallback : SensorValueTransmission σ)
    (root : List ThresholdedSensorStruct) (env : σ)
    (h : ∀ node ∈ root, 1 ≤ node.readingInterval ∧
      timeStamp + node.readingInterval * 1000 < ULONG_MOD) :
    ∀ node ∈ (checkRemaining timeStamp aCallBack transmissionCallback root env).nodes,
      timeStamp < node.lastChecked := by
  induction root generalizing env with
  | nil => intro node hmem; simp [checkRemaining] at hmem
  | cons first rest ih =>
    intro node hmem
    simp only [checkRemaining, List.mem_cons] at hmem
    rcases hmem with rfl | hmem
    · exact check_then_not_due first timeStamp aCallBack transmissionCallback env
        (h first (List.mem_cons_self _ _)).1 (h first (List.mem_cons_self _ _)).2
    · exact ih _ (fun n hn => h n (List.mem_cons_of_mem _ hn)) node hmem

theorem checkRemaining_none_due {σ : Type} (timeStamp : Nat)
    (aCallBack : SensorValueRequestedCallback σ)
    (transmissionCallback : SensorValueTransmission σ)
    (root : List ThresholdedSensorStruct) (env : σ)
    (h : ∀ node ∈ root, timeStamp < node.lastChecked) :
    checkRemaining timeStamp aCallBack transmissionCallback root env
      = { nodes := root, env := env, calls := [] } := by
  induction root generalizing env with
  | nil => rfl
  | cons first rest ih =>
    simp only [checkRemaining]
    rw [check_not_due first timeStamp aCallBack transmissionCallback env
      (h first (List.mem_cons_self _ _))]
    simp only []
    rw [ih env (fun n hn => h n (List.mem_cons_of_mem _ hn))]
    rfl

/-- C5: when every node has a reading interval of at least 1 s and
`millis + readingInterval * 1000` does not overflow, a second poll at the same
time stamp `millis`, whatever its callbacks and environment are, calls no
callback and returns exactly the list the first poll left. -/
theorem C5_second_poll_at_same_time_is_noop {σ : Type}
    (root : List ThresholdedSensorStruct) (millis : Nat)
    (aCallBack : SensorValueRequestedCallback σ)
    (transmissionCallback : SensorValueTransmission σ) (env : σ)
    (aCallBack2 : SensorValueRequestedCallback σ)
    (transmissionCallback2 : SensorValueTransmission σ) (env2 : σ)
    (h : ∀ node ∈ root, 1 ≤ node.readingInterval ∧
      millis + node.readingInterval * 1000 < ULONG_MOD) :
    checkThresholdedSensors
        (checkThresholdedSensors root millis aCallBack transmissionCallback env).nodes
        millis aCallBack2 transmissionCallback2 env2
      = { nodes := (checkThresholdedSensors root millis aCallBack transmissionCallback env).nodes
          env := env2
          calls := [] } := by
  rw [checkThresholdedSensors_eq_checkRemaining, checkThresholdedSensors_eq_checkRemaining]
  exact checkRemaining_none_due millis aCallBack2 transmissionCallback2 _ env2
    (checkRemaining_then_not_due millis aCallBack transmissionCallback root env h)

/-- C5 at a list of two nodes, both due at 1000, polled twice at 1000. -/
theorem C5_second_poll_at_same_time_is_noop_witness :
    (∀ node ∈ registerThresholdedSensor
        (registerThresholdedSensor [] 0 1 7 ThreshHoldedSensorType.TEMPERATURE_SENSOR 2 1 3)
        0 1 6 ThreshHoldedSensorType.HUMIDTY_SENSOR 1 5 4,
      1 ≤ node.readingInterval ∧ 1000 + node.readingInterval * 1000 < ULONG_MOD) ∧
    (checkThresholdedSensors
        (checkThresholdedSensors
          (registerThresholdedSensor
            (registerThresholdedSensor [] 0 1 7 ThreshHoldedSensorType.TEMPERATURE_SENSOR 2 1 3)
            0 1 6 ThreshHoldedSensorType.HUMIDTY_SENSOR 1 5 4)
          1000 scriptedCallBack scriptedTransmission [21, 40]).nodes
        1000 scriptedCallBack scriptedTransmission [25, 50]).calls = [] :=
  ⟨by decide,
   congrArg Outcome.calls (C5_second_poll_at_same_time_is_noop
    (registerThresholdedSensor
      (registerThresholdedSensor [] 0 1 7 ThreshHoldedSensorType.TEMPERATURE_SENSOR 2 1 3)
      0 1 6 ThreshHoldedSensorType.HUMIDTY_SENSOR 1 5 4)
    1000 scriptedCallBack scriptedTransmission [21, 40]
    scriptedCallBack scriptedTransmission [25, 50] (by decide))⟩

/-! ### The callback calls of one poll -/

/-- A due node makes the check request its value and then call the
transmission callback at most once, for that same node. -/
theorem check_due_calls {σ : Type} (aSensor : ThresholdedSensorStruct) (timeStamp : Nat)
    (aCallBack : SensorValueRequestedCallback σ)
    (transmissionCallback : SensorValueTransmission σ) (env : σ)
    (hdue : aSensor.lastChecked ≤ timeStamp) :
    ∃ sent : Option ℚ,
      (checkIndividualThreshHoldedSensor aSensor timeStamp aCallBack transmissionCallback
        env).calls = callsFor aSensor sent := by
  unfold checkIndividualThreshHoldedSensor
  rw [if_pos hdue]
  simp only []
  split_ifs
  · exact ⟨some (aCallBack env aSensor.sensor_id aSensor.sensor_type).1, rfl⟩
  · exact ⟨none, rfl⟩

theorem checkRemaining_calls {σ : Type} (timeStamp : Nat)
    (aCallBack : SensorValueRequestedCallback σ)
    (transmissionCallback : SensorValueTransmission σ)
    (root : List ThresholdedSensorStruct) (env : σ) :
    ∃ sent : List (Option ℚ),
      sent.length = (root.filter (fun node => decide (node.lastChecked ≤ timeStamp))).length ∧
      (checkRemaining timeStamp aCallBack transmissionCallback root env).calls
        = (List.zipWith callsFor
            (root.filter (fun node => decide (node.lastChecked ≤ timeStamp))) sent).flatten := by
  induction root generalizing env with
  | nil => exact ⟨[], rfl, rfl⟩
  | cons first rest ih =>
    simp only [checkRemaining]
    obtain ⟨sent, hlen, hcalls⟩ := ih
      (checkIndividualThreshHoldedSensor first timeStamp aCallBack transmissionCallback env).env
    by_cases hdue : first.lastChecked ≤ timeStamp
    · obtain ⟨o, ho⟩ := check_due_calls first timeStamp aCallBack transmissionCallback env hdue
      refine ⟨o :: sent, ?_, ?_⟩
      · simp [List.filter_cons, hdue, hlen]
      · rw [ho, hcalls]
        simp [List.filter_cons, hdue]
    · refine ⟨sent, ?_, ?_⟩
      · simp [List.filter_cons, hdue, hlen]
      · rw [hcalls, check_not_due first timeStamp aCallBack transmissionCallback env
          (by omega)]
        simp [List.filter_cons, hdue]

/-- C7: the callback calls of a poll are, for the nodes with
`lastChecked ≤ millis` in list order, one value request each, followed by at
most one transmission for that node (`callsFor`). A due node for which both
the threshold condition and the counter condition hold is transmitted once.
With threshold 2, forced interval 3 and the values 0, 0, 5 on three due
polls, the third poll makes one transmission, of the value 5. -/
theorem C7_calls_of_a_poll :
    (∀ (σ : Type) (root : List ThresholdedSensorStruct) (millis : Nat)
      (aCallBack : SensorValueRequestedCallback σ)
      (transmissionCallback : SensorValueTransmission σ) (env : σ),
      ∃ sent : List (Option ℚ),
        sent.length = (root.filter (fun node => decide (node.lastChecked ≤ millis))).length ∧
        (checkThresholdedSensors root millis aCallBack transmissionCallback env).calls
          = (List.zipWith callsFor
              (root.filter (fun node => decide (node.lastChecked ≤ millis))) sent).flatten) ∧
    (∀ (σ : Type) (aSensor : ThresholdedSensorStruct) (timeStamp : Nat)
      (aCallBack : SensorValueRequestedCallback σ)
      (transmissionCallback : SensorValueTransmission σ) (env : σ),
      aSensor.lastChecked ≤ timeStamp →
      aSensor.threshHold ≤
        |aSensor.lastValue - (aCallBack env aSensor.sensor_id aSensor.sensor_type).1| →
      (aSensor.measureCounter + 1) % 256 = aSensor.forcedTransmissionInterval →
      (checkIndividualThreshHoldedSensor aSensor timeStamp aCallBack transmissionCallback
        env).calls
        = [CallbackEvent.valueRequested aSensor.sensor_id aSensor.sensor_type,
           CallbackEvent.valueTransmission aSensor.child_id aSensor.sensor_id
             aSensor.sensor_type (aCallBack env aSensor.sensor_id aSensor.sensor_type).1]) ∧
    (loop scriptedCallBack scriptedTransmission
        (registerThresholdedSensor [] 0 1 7 ThreshHoldedSensorType.TEMPERATURE_SENSOR 2 1 3)
        [1000, 2000, 3000] [0, 0, 5]).map Outcome.calls
      = [[CallbackEvent.valueRequested 7 ThreshHoldedSensorType.TEMPERATURE_SENSOR,
          CallbackEvent.valueTransmission 1 7 ThreshHoldedSensorType.TEMPERATURE_SENSOR 0],
         [CallbackEvent.valueRequested 7 ThreshHoldedSensorType.TEMPERATURE_SENSOR],
         [CallbackEvent.valueRequested 7 ThreshHoldedSensorType.TEMPERATURE_SENSOR,
          CallbackEvent.valueTransmission 1 7 ThreshHoldedSensorType.TEMPERATURE_SENSOR 5]] := by
  refine ⟨?_, ?_, by decide!⟩
  · intro σ root millis aCallBack transmissionCallback env
    rw [checkThresholdedSensors_eq_checkRemaining]
    exact checkRemaining_calls millis aCallBack transmissionCallback root env
  · intro σ aSensor timeStamp aCallBack transmissionCallback env hdue hthr _
    rw [check_due_threshold aSensor timeStamp aCallBack transmissionCallback env hdue hthr]

/-- C7 at a due node with counter 2, forced interval 3, threshold 2 and last
value 0 that is answered 5: both conditions hold and the value is sent once. -/
theorem C7_calls_of_a_poll_witness :
    ((1000 : Nat) ≤ 1000 ∧ (2 : ℚ) ≤ |0 - 5| ∧ (2 + 1) % 256 = 3) ∧
    (checkIndividualThreshHoldedSensor
        { child_id := 1, sensor_id := 7
          sensor_type := ThreshHoldedSensorType.TEMPERATURE_SENSOR
          threshHold := 2, forcedTransmissionInterval := 3, measureCounter := 2
          lastValue := 0, lastChecked := 1000, readingInterval := 1 }
        1000 scriptedCallBack scriptedTransmission [5]).calls
      = [CallbackEvent.valueRequested 7 ThreshHoldedSensorType.TEMPERATURE_SENSOR,
         CallbackEvent.valueTransmission 1 7 ThreshHoldedSensorType.TEMPERATURE_SENSOR 5] :=
  ⟨⟨by decide, by decide!, by decide⟩,
   C7_calls_of_a_poll.2.1 (List ℚ)
    { child_id := 1, sensor_id := 7
      sensor_type := ThreshHoldedSensorType.TEMPERATURE_SENSOR
      threshHold := 2, forcedTransmissionInterval := 3, measureCounter := 2
      lastValue := 0, lastChecked := 1000, readingInterval := 1 }
    1000 scriptedCallBack scriptedTransmission [5] (by decide) (by decide!) (by decide)⟩

/-! ### Spacing of the measurements of one node -/

/-- Without overflow of the time stamp, a check of a run that measures the node
happens at a time stamp that is at least the `lastChecked` the run started with. -/
theorem lastChecked_le_of_measured {σ : Type} (aCallBack : SensorValueRequestedCallback σ)
    (transmissionCallback : SensorValueTransmission σ)
    (steps : List (Nat × σ)) (aSensor : ThresholdedSensorStruct) (j : Nat)
    (oj : Outcome ThresholdedSensorStruct σ) (tj : Nat × σ)
    (hno : ∀ step ∈ steps, step.1 + aSensor.readingInterval * 1000 < ULONG_MOD)
    (hj : (checkSuccessively aCallBack transmissionCallback aSensor steps)[j]? = some oj)
    (hm : oj.calls ≠ []) (htj : steps[j]? = some tj) :
    aSensor.lastChecked ≤ tj.1 := by
  induction steps generalizing aSensor j with
  | nil => simp at htj
  | cons step rest ih =>
    cases j with
    | zero =>
      simp only [checkSuccessively, List.getElem?_cons_zero, Option.some.injEq] at hj htj
      subst hj htj
      exact due_of_calls_ne_nil aSensor _ aCallBack transmissionCallback _ hm
    | succ j =>
      simp only [checkSuccessively, List.getElem?_cons_succ] at hj htj
      have hcfg := (check_configuration aSensor step.1 aCallBack transmissionCallback step.2).1
      have hmono := check_lastChecked_mono aSensor step.1 aCallBack transmissionCallback step.2
        (hno step (List.mem_cons_self _ _))
      have := ih _ j (fun st hst => by rw [hcfg]; exact hno st (List.mem_cons_of_mem _ hst))
        hj htj
      omega

/-- Without overflow of the time stamp, two checks of a run that both measure
the node are at least `readingInterval * 1000` apart. -/
theorem measured_spacing {σ : Type} (aCallBack : SensorValueRequestedCallback σ)
    (transmissionCallback : SensorValueTransmission σ)
    (steps : List (Nat × σ)) (aSensor : ThresholdedSensorStruct) (i j : Nat)
    (oi oj : Outcome ThresholdedSensorStruct σ) (ti tj : Nat × σ)
    (hij : i < j)
    (hno : ∀ step ∈ steps, step.1 + aSensor.readingInterval * 1000 < ULONG_MOD)
    (hi : (checkSuccessively aCallBack transmissionCallback aSensor steps)[i]? = some oi)
    (hmi : oi.calls ≠ []) (hti : steps[i]? = some ti)
    (hj : (checkSuccessively aCallBack transmissionCallback aSensor steps)[j]? = some oj)
    (hmj : oj.calls ≠ []) (htj : steps[j]? = some tj) :
    ti.1 + aSensor.readingInterval * 1000 ≤ tj.1 := by
  induction steps generalizing aSensor i j with
  | nil => simp at htj
  | cons step rest ih =>
    have hcfg := (check_configuration aSensor step.1 aCallBack transmissionCallback step.2).1
    have hno2 : ∀ st ∈ rest, st.1 + (checkIndividualThreshHoldedSensor aSensor step.1 aCallBack
        transmissionCallback step.2).nodes.readingInterval * 1000 < ULONG_MOD := by
      intro st hst
      rw [hcfg]
      exact hno st (List.mem_cons_of_mem _ hst)
    cases j with
    | zero => omega
    | succ j =>
      simp only [checkSuccessively, List.getElem?_cons_succ] at hj htj
      cases i with
      | zero =>
        simp only [checkSuccessively, List.getElem?_cons_zero, Option.some.injEq] at hi hti
        subst hi hti
        have hdue := due_of_calls_ne_nil aSensor _ aCallBack transmissionCallback _ hmi
        have hset := check_due_lastChecked aSensor step.1 aCallBack transmissionCallback step.2
          hdue
        rw [lastChecked_no_overflow _ _ (hno step (List.mem_cons_self _ _))] at hset
        have := lastChecked_le_of_measured aCallBack transmissionCallback rest _ j oj tj hno2
          hj hmj htj
        omega
      | succ i =>
        simp only [checkSuccessively, List.getElem?_cons_succ] at hi hti
        have := ih _ i j (by omega) hno2 hi hti hj htj
        rw [hcfg] at this
        exact this

/-- C8: a node that is due in a poll with time stamp `millis` leaves the poll
with `lastChecked = millis + readingInterval * 1000` (in `unsigned long`
arithmetic; the plain sum when it does not overflow), whatever its place in the
list. Hence, in a run of checks of one node whose time stamps do not overflow,
any two checks that measure the node, and so any two successive measurements,
are at least `readingInterval * 1000` ms apart. -/
theorem C8_reading_interval_spacing :
    (∀ (σ : Type) (front back : List ThresholdedSensorStruct)
      (aSensor : ThresholdedSensorStruct) (millis : Nat)
      (aCallBack : SensorValueRequestedCallback σ)
      (transmissionCallback : SensorValueTransmission σ) (env : σ),
      aSensor.lastChecked ≤ millis →
      ∃ measured : ThresholdedSensorStruct,
        (checkThresholdedSensors (front ++ aSensor :: back) millis aCallBack
          transmissionCallback env).nodes[front.length]? = some measured ∧
        measured.readingInterval = aSensor.readingInterval ∧
        measured.lastChecked
          = (millis + (aSensor.readingInterval * 1000) % ULONG_MOD) % ULONG_MOD ∧
        (millis + aSensor.readingInterval * 1000 < ULONG_MOD →
          measured.lastChecked = millis + aSensor.readingInterval * 1000)) ∧
    (∀ (σ : Type) (aCallBack : SensorValueRequestedCallback σ)
      (transmissionCallback : SensorValueTransmission σ)
      (aSensor : ThresholdedSensorStruct) (steps : List (Nat × σ)) (i j : Nat)
      (oi oj : Outcome ThresholdedSensorStruct σ) (ti tj : Nat × σ),
      i < j →
      (∀ step ∈ steps, step.1 + aSensor.readingInterval * 1000 < ULONG_MOD) →
      (checkSuccessively aCallBack transmissionCallback aSensor steps)[i]? = some oi →
      oi.calls ≠ [] → steps[i]? = some ti →
      (checkSuccessively aCallBack transmissionCallback aSensor steps)[j]? = some oj →
      oj.calls ≠ [] → steps[j]? = some tj →
      ti.1 + aSensor.readingInterval * 1000 ≤ tj.1) := by
  constructor
  · intro σ front back aSensor millis aCallBack transmissionCallback env hdue
    refine ⟨(checkIndividualThreshHoldedSensor aSensor millis aCallBack transmissionCallback
      (checkThresholdedSensors front millis aCallBack transmissionCallback env).env).nodes,
      ?_, ?_, ?_, ?_⟩
    · rw [checkThresholdedSensors_split]
      simp only []
      rw [List.getElem?_append_right
        (by rw [checkThresholdedSensors_length]),
        checkThresholdedSensors_length, Nat.sub_self, List.getElem?_cons_zero]
    · exact (check_configuration aSensor millis aCallBack transmissionCallback _).1
    · exact check_due_lastChecked aSensor millis aCallBack transmissionCallback _ hdue
    · intro hno
      rw [check_due_lastChecked aSensor millis aCallBack transmissionCallback _ hdue,
        lastChecked_no_overflow _ _ hno]
  · intro σ aCallBack transmissionCallback aSensor steps i j oi oj ti tj hij hno hi hmi hti
      hj hmj htj
    exact measured_spacing aCallBack transmissionCallback steps aSensor i j oi oj ti tj hij hno
      hi hmi hti hj hmj htj

/-- C8 at a poll at 1500 of a list whose second node, with a reading interval
of 5 s, is due, and at a run of three checks at 1000, 1500 and 2000 of a node
with a reading interval of 1 s: measured at 1000, skipped at 1500, measured
again at 2000. -/
theorem C8_reading_interval_spacing_witness :
    (((1200 : Nat) ≤ 1500 ∧ 1500 + 5 * 1000 < ULONG_MOD) ∧
      ∃ measured : ThresholdedSensorStruct,
        (checkThresholdedSensors
          ([{ child_id := 1, sensor_id := 7
              sensor_type := ThreshHoldedSensorType.TEMPERATURE_SENSOR
              threshHold := 2, forcedTransmissionInterval := 3, measureCounter := 0
              lastValue := 0, lastChecked := 1000, readingInterval := 1 }] ++
            { child_id := 1, sensor_id := 6
              sensor_type := ThreshHoldedSensorType.HUMIDTY_SENSOR
              threshHold := 1, forcedTransmissionInterval := 4, measureCounter := 1
              lastValue := 40, lastChecked := 1200, readingInterval := 5 } :: [])
          1500 scriptedCallBack scriptedTransmission [21, 40]).nodes[1]? = some measured ∧
        measured.lastChecked = 1500 + 5 * 1000) ∧
    ((0 < 2 ∧
      (∀ step ∈ [(1000, ([] : List ℚ)), (1500, []), (2000, [])],
        step.1 + 1 * 1000 < ULONG_MOD) ∧
      (checkIndividualThreshHoldedSensor
        (newNode 0 1 7 ThreshHoldedSensorType.TEMPERATURE_SENSOR 2 1 3) 1000
        scriptedCallBack scriptedTransmission []).calls ≠ [] ∧
      (checkIndividualThreshHoldedSensor
        (checkIndividualThreshHoldedSensor
          (checkIndividualThreshHoldedSensor
            (newNode 0 1 7 ThreshHoldedSensorType.TEMPERATURE_SENSOR 2 1 3) 1000
            scriptedCallBack scriptedTransmission []).nodes 1500
          scriptedCallBack scriptedTransmission []).nodes 2000
        scriptedCallBack scriptedTransmission []).calls ≠ []) ∧
      1000 + 1 * 1000 ≤ 2000) := by
  refine ⟨⟨⟨by decide, by decide⟩, ?_⟩,
    ⟨by decide, by decide, by decide!, by decide!⟩, ?_⟩
  · obtain ⟨measured, hat, -, -, hplain⟩ := C8_reading_interval_spacing.1 (List ℚ)
      [{ child_id := 1, sensor_id := 7
         sensor_type := ThreshHoldedSensorType.TEMPERATURE_SENSOR
         threshHold := 2, forcedTransmissionInterval := 3, measureCounter := 0
         lastValue := 0, lastChecked := 1000, readingInterval := 1 }] []
      { child_id := 1, sensor_id := 6
        sensor_type := ThreshHoldedSensorType.HUMIDTY_SENSOR
        threshHold := 1, forcedTransmissionInterval := 4, measureCounter := 1
        lastValue := 40, lastChecked := 1200, readingInterval := 5 }
      1500 scriptedCallBack scriptedTransmission [21, 40] (by decide)
    exact ⟨measured, hat, hplain (by decide)⟩
  · exact C8_reading_interval_spacing.2 (List ℚ) scriptedCallBack scriptedTransmission
      (newNode 0 1 7 ThreshHoldedSensorType.TEMPERATURE_SENSOR 2 1 3)
      [(1000, []), (1500, []), (2000, [])] 0 2
      (checkIndividualThreshHoldedSensor
        (newNode 0 1 7 ThreshHoldedSensorType.TEMPERATURE_SENSOR 2 1 3) 1000
        scriptedCallBack scriptedTransmission [])
      (checkIndividualThreshHoldedSensor
        (checkIndividualThreshHoldedSensor
          (checkIndividualThreshHoldedSensor
            (newNode 0 1 7 ThreshHoldedSensorType.TEMPERATURE_SENSOR 2 1 3) 1000
            scriptedCallBack scriptedTransmission []).nodes 1500
          scriptedCallBack scriptedTransmission []).nodes 2000
        scriptedCallBack scriptedTransmission [])
      (1000, []) (2000, []) (by decide) (by decide) rfl (by decide!) rfl
      (by simp only [checkSuccessively, List.getElem?_cons_succ, List.getElem?_cons_zero])
      (by decide!) rfl

end ThresholdUtil

namespace WeatherForecast

/-! ### The warm-up of the forecast -/

/-- While `firstRound` holds and fewer than 34 samples were counted, a call of
`sample` returns `UNKNOWN`, keeps `firstRound` and counts one more sample. -/
theorem sample_during_warm_up (g : Globals) (pressure : ℚ)
    (hfirst : g.firstRound = true) (hcount : g.minuteCount < 34) :
    (sample g pressure).1 = FORECAST.UNKNOWN.toInt ∧
    (sample g pressure).2.firstRound = true ∧
    (sample g pressure).2.minuteCount = g.minuteCount + 1 := by
  have h185 : ¬ (g.minuteCount + 1 > 185) := by omega
  have hupd : (sampleUpdate g pressure).firstRound = true ∧
      (sampleUpdate g pressure).minuteCount = g.minuteCount + 1 := by
    unfold sampleUpdate
    simp only [h185, if_false]
    split_ifs <;> first | exact ⟨hfirst, rfl⟩ | (exfalso; omega)
  refine ⟨?_, hupd.1, hupd.2⟩
  show classify (sampleUpdate g pressure) = FORECAST.UNKNOWN.toInt
  unfold classify
  rw [if_pos ⟨by rw [hupd.2]; omega, hupd.1⟩]

theorem forecasts_during_warm_up (pressures : List ℚ) (g : Globals) (n : Nat)
    (hfirst : g.firstRound = true) (hcount : g.minuteCount + n ≤ 34) :
    (forecasts g pressures).take n
      = List.replicate (min n pressures.length) FORECAST.UNKNOWN.toInt := by
  induction pressures generalizing g n with
  | nil => simp [forecasts]
  | cons pressure rest ih =>
    cases n with
    | zero => simp
    | succ n =>
      obtain ⟨hret, hfirst2, hcount2⟩ :=
        sample_during_warm_up g pressure hfirst (by omega)
      simp only [forecasts, List.take_succ_cons, List.length_cons]
      rw [ih _ n hfirst2 (by rw [hcount2]; omega), hret, Nat.succ_min_succ,
        List.replicate_succ]

/-- C10: from the globals of program start, whatever the pressure samples are,
each of the first 34 calls of `sample` returns `UNKNOWN`, which is 5. -/
theorem C10_warm_up_is_unknown (pressures : List ℚ) :
    (forecasts initial pressures).take 34 = List.replicate (min 34 pressures.length) 5 ∧
    FORECAST.UNKNOWN.toInt = 5 :=
  ⟨forecasts_during_warm_up pressures initial 34 rfl (Nat.le_refl 34), rfl⟩

end WeatherForecast

namespace WeatherForecast

/-! ### One call of `sample`, field by field -/

theorem sampleUpdate_eq (g : Globals) (pressure : ℚ) :
    sampleUpdate g pressure = milestoneChain (storeAndCount g pressure) := rfl

theorem storeAndCount_fields (g : Globals) (pressure : ℚ) :
    (storeAndCount g pressure).minuteCount
      = (if g.minuteCount + 1 > 185 then 6 else g.minuteCount + 1) ∧
    (storeAndCount g pressure).lastPressureSamples
      = Function.update g.lastPressureSamples ⟨g.minuteCount % 5, Nat.mod_lt _ (by decide)⟩
          pressure ∧
    (storeAndCount g pressure).dP_dt = g.dP_dt ∧
    (storeAndCount g pressure).pressureAvg = g.pressureAvg ∧
    (storeAndCount g pressure).pressureAvg2 = g.pressureAvg2 ∧
    (storeAndCount g pressure).firstRound = g.firstRound := by
  unfold storeAndCount
  simp only []
  split_ifs <;> exact ⟨rfl, rfl, rfl, rfl, rfl, rfl⟩

/-- What the `if (minuteCount == ...)` chain does to each global. -/
theorem milestoneChain_fields (g : Globals) :
    (milestoneChain g).minuteCount = g.minuteCount ∧
    (milestoneChain g).lastPressureSamples = g.lastPressureSamples ∧
    (milestoneChain g).firstRound = (if g.minuteCount = 185 then false else g.firstRound) ∧
    (milestoneChain g).pressureAvg2
      = (if g.minuteCount = 125 then getLastPressureSamplesAverage g else g.pressureAvg2) ∧
    (milestoneChain g).pressureAvg
      = (if g.minuteCount = 5 then getLastPressureSamplesAverage g
         else if g.minuteCount = 185 then g.pressureAvg2 else g.pressureAvg) ∧
    (milestoneChain g).dP_dt
      = (if isRateMilestone g.minuteCount = true then
          tableRate g.minuteCount g.firstRound
            ((getLastPressureSamplesAverage g - g.pressureAvg) * CONVERSION_FACTOR)
         else g.dP_dt) := by
  unfold milestoneChain
  by_cases h5 : g.minuteCount = 5
  · simp [isRateMilestone, h5]
  by_cases h35 : g.minuteCount = 35
  · cases hfr : g.firstRound <;> simp [isRateMilestone, tableRate, h35, hfr]
  by_cases h65 : g.minuteCount = 65
  · cases hfr : g.firstRound <;> simp [isRateMilestone, tableRate, h65, hfr]
  by_cases h95 : g.minuteCount = 95
  · cases hfr : g.firstRound <;> simp [isRateMilestone, tableRate, h95, hfr]
  by_cases h125 : g.minuteCount = 125
  · cases hfr : g.firstRound <;> simp [isRateMilestone, tableRate, h125, hfr]
  by_cases h155 : g.minuteCount = 155
  · cases hfr : g.firstRound <;> simp [isRateMilestone, tableRate, h155, hfr]
  by_cases h185 : g.minuteCount = 185
  · cases hfr : g.firstRound <;> simp [isRateMilestone, tableRate, h185, hfr]
  simp [isRateMilestone, h5, h35, h65, h95, h125, h155, h185]

theorem getLastPressureSamplesAverage_congr (g h : Globals)
    (hbuf : g.lastPressureSamples = h.lastPressureSamples) :
    getLastPressureSamplesAverage g = getLastPressureSamplesAverage h := by
  unfold getLastPressureSamplesAverage
  rw [hbuf]

theorem getLastPressureSamplesAverage_eq (g : Globals) :
    getLastPressureSamplesAverage g
      = (g.lastPressureSamples 0 + g.lastPressureSamples 1 + g.lastPressureSamples 2 +
          g.lastPressureSamples 3 + g.lastPressureSamples 4) / 5 := by
  unfold getLastPressureSamplesAverage
  simp [List.finRange, List.pmap, List.range, List.range.loop]
  rfl

/-- What one call of `sample` does to each global, in terms of the globals
before the call (`g`) and after it. -/
theorem sampleUpdate_fields (g : Globals) (pressure : ℚ) :
    (sampleUpdate g pressure).minuteCount
      = (if g.minuteCount + 1 > 185 then 6 else g.minuteCount + 1) ∧
    (sampleUpdate g pressure).lastPressureSamples
      = Function.update g.lastPressureSamples ⟨g.minuteCount % 5, Nat.mod_lt _ (by decide)⟩
          pressure ∧
    (sampleUpdate g pressure).firstRound
      = (if (sampleUpdate g pressure).minuteCount = 185 then false else g.firstRound) ∧
    (sampleUpdate g pressure).pressureAvg2
      = (if (sampleUpdate g pressure).minuteCount = 125 then
          getLastPressureSamplesAverage (sampleUpdate g pressure) else g.pressureAvg2) ∧
    (sampleUpdate g pressure).pressureAvg
      = (if (sampleUpdate g pressure).minuteCount = 5 then
          getLastPressureSamplesAverage (sampleUpdate g pressure)
         else if (sampleUpdate g pressure).minuteCount = 185 then g.pressureAvg2
         else g.pressureAvg) ∧
    (sampleUpdate g pressure).dP_dt
      = (if isRateMilestone (sampleUpdate g pressure).minuteCount = true then
          tableRate (sampleUpdate g pressure).minuteCount g.firstRound
            ((getLastPressureSamplesAverage (sampleUpdate g pressure) - g.pressureAvg)
              * CONVERSION_FACTOR)
         else g.dP_dt) := by
  obtain ⟨hc, hb, hr, ha, ha2, hf⟩ := storeAndCount_fields g pressure
  obtain ⟨kc, kb, kf, ka2, ka, kr⟩ := milestoneChain_fields (storeAndCount g pressure)
  have havg : getLastPressureSamplesAverage (sampleUpdate g pressure)
      = getLastPressureSamplesAverage (storeAndCount g pressure) :=
    getLastPressureSamplesAverage_congr _ _ kb
  rw [havg, sampleUpdate_eq, kc]
  refine ⟨hc, ?_, ?_, ?_, ?_, ?_⟩
  · rw [kb, hb]
  · rw [kf, hf]
  · rw [ka2, ha2]
  · rw [ka, ha, ha2]
  · rw [kr, ha, hr, hf]

/-! ### Runs of calls of `sample` -/

theorem globalsAfter_append (g : Globals) (xs ys : List ℚ) :
    globalsAfter g (xs ++ ys) = globalsAfter (globalsAfter g xs) ys := by
  induction xs generalizing g with
  | nil => rfl
  | cons x xs ih => simp [globalsAfter, ih]

theorem forecasts_append (g : Globals) (xs ys : List ℚ) :
    forecasts g (xs ++ ys) = forecasts g xs ++ forecasts (globalsAfter g xs) ys := by
  induction xs generalizing g with
  | nil => rfl
  | cons x xs ih => simp [forecasts, globalsAfter, ih]

theorem firstCalls_succ (pressure : Nat → ℚ) (n : Nat) :
    firstCalls pressure (n + 1) = firstCalls pressure n ++ [pressure (n + 1)] := by
  simp [firstCalls, List.range_succ]

theorem globalsAfterCall_zero (pressure : Nat → ℚ) : globalsAfterCall pressure 0 = initial :=
  rfl

theorem globalsAfterCall_succ (pressure : Nat → ℚ) (n : Nat) :
    globalsAfterCall pressure (n + 1)
      = sampleUpdate (globalsAfterCall pressure n) (pressure (n + 1)) := by
  unfold globalsAfterCall
  rw [firstCalls_succ, globalsAfter_append]
  rfl

theorem returnedByCall_succ (pressure : Nat → ℚ) (n : Nat) :
    returnedByCall pressure (n + 1) = classify (globalsAfterCall pressure (n + 1)) := by
  rw [globalsAfterCall_succ]
  rfl

/-- The values `returnedByCall` are the values of `forecasts`. -/
theorem forecasts_firstCalls (pressure : Nat → ℚ) (n : Nat) :
    forecasts initial (firstCalls pressure n)
      = (List.range n).map (fun k => returnedByCall pressure (k + 1)) := by
  induction n with
  | zero => rfl
  | succ n ih =>
    rw [firstCalls_succ, forecasts_append, ih, List.range_succ, List.map_append]
    rfl

/-! ### The counter and the warm-up flag -/

theorem counterSchedule_succ (n : Nat) :
    counterSchedule (n + 1)
      = if counterSchedule n + 1 > 185 then 6 else counterSchedule n + 1 := by
  unfold counterSchedule
  split_ifs <;> omega

theorem minuteCount_globalsAfterCall (pressure : Nat → ℚ) (n : Nat) :
    (globalsAfterCall pressure n).minuteCount = counterSchedule n := by
  induction n with
  | zero => rfl
  | succ n ih =>
    rw [globalsAfterCall_succ, (sampleUpdate_fields _ _).1, ih, counterSchedule_succ]

theorem counterSchedule_bounds (n : Nat) (hn : 1 ≤ n) :
    1 ≤ counterSchedule n ∧ counterSchedule n ≤ 185 := by
  unfold counterSchedule
  split_ifs <;> omega

theorem counterSchedule_eq_five (n : Nat) : counterSchedule n = 5 ↔ n = 5 := by
  unfold counterSchedule
  split_ifs <;> omega

theorem counterSchedule_mod_five (n : Nat) : counterSchedule n % 5 = n % 5 := by
  unfold counterSchedule
  split_ifs <;> omega

theorem counterSchedule_add_cycle (n : Nat) (hn : 6 ≤ n) :
    counterSchedule (n + 180) = counterSchedule n := by
  unfold counterSchedule
  split_ifs <;> omega

theorem isRateMilestone_counterSchedule (n : Nat) :
    isRateMilestone (counterSchedule n) = true ↔ 35 ≤ n ∧ n % 30 = 5 := by
  simp only [isRateMilestone, decide_eq_true_eq]
  unfold counterSchedule
  split_ifs <;> omega

theorem firstRound_globalsAfterCall (pressure : Nat → ℚ) (n : Nat) :
    (globalsAfterCall pressure n).firstRound = decide (n < 185) := by
  induction n with
  | zero => rfl
  | succ n ih =>
    have hstep := (sampleUpdate_fields (globalsAfterCall pressure n) (pressure (n + 1))).2.2.1
    rw [← globalsAfterCall_succ, minuteCount_globalsAfterCall] at hstep
    rw [hstep, ih]
    by_cases h : n + 1 < 185
    · have hc : counterSchedule (n + 1) ≠ 185 := by
        unfold counterSchedule
        split_ifs <;> omega
      rw [if_neg hc]
      simp only [decide_eq_decide]
      omega
    · by_cases h185 : counterSchedule (n + 1) = 185
      · rw [if_pos h185]
        simp [h]
      · rw [if_neg h185]
        have : n + 1 ≠ 185 := by
          intro e
          rw [e] at h185
          exact h185 (by decide)
        simp only [decide_eq_decide]
        omega

/-! ### The circular buffer -/

theorem lastPressureSamples_succ (pressure : Nat → ℚ) (n : Nat) :
    (globalsAfterCall pressure (n + 1)).lastPressureSamples
      = Function.update (globalsAfterCall pressure n).lastPressureSamples
          ⟨n % 5, Nat.mod_lt _ (by decide)⟩ (pressure (n + 1)) := by
  rw [globalsAfterCall_succ, (sampleUpdate_fields _ _).2.1]
  have e : (⟨(globalsAfterCall pressure n).minuteCount % 5, Nat.mod_lt _ (by decide)⟩ : Fin 5)
      = ⟨n % 5, Nat.mod_lt _ (by decide)⟩ := by
    apply Fin.ext
    show (globalsAfterCall pressure n).minuteCount % 5 = n % 5
    rw [minuteCount_globalsAfterCall, counterSchedule_mod_five]
  rw [e]

/-- After `n` calls, the slot `(n - 1 - j) mod 5` holds the sample of the call
`n - j`, for each of the last five calls (`j < 5`) that was made (`j < n`). -/
theorem lastPressureSamples_recent (pressure : Nat → ℚ) (n j : Nat) (hj : j < 5) (hjn : j < n) :
    (globalsAfterCall pressure n).lastPressureSamples
        ⟨(n - 1 - j) % 5, Nat.mod_lt _ (by decide)⟩ = pressure (n - j) := by
  induction n generalizing j with
  | zero => omega
  | succ n ih =>
    rw [lastPressureSamples_succ]
    cases j with
    | zero =>
      have e : (⟨(n + 1 - 1 - 0) % 5, Nat.mod_lt _ (by decide)⟩ : Fin 5)
          = ⟨n % 5, Nat.mod_lt _ (by decide)⟩ := Fin.ext (by simp)
      rw [e, Function.update_same]
      rfl
    | succ j =>
      have hne : (⟨(n + 1 - 1 - (j + 1)) % 5, Nat.mod_lt _ (by decide)⟩ : Fin 5)
          ≠ ⟨n % 5, Nat.mod_lt _ (by decide)⟩ := by
        intro h
        have := congrArg Fin.val h
        simp only [] at this
        omega
      rw [Function.update_noteq hne]
      have e : (⟨(n + 1 - 1 - (j + 1)) % 5, Nat.mod_lt _ (by decide)⟩ : Fin 5)
          = ⟨(n - 1 - j) % 5, Nat.mod_lt _ (by decide)⟩ := by
        apply Fin.ext
        show (n + 1 - 1 - (j + 1)) % 5 = (n - 1 - j) % 5
        congr 1
        omega
      rw [e, ih j (by omega) (by omega)]
      congr 1
      omega

theorem lastPressureSamples_slot (pressure : Nat → ℚ) (n : Nat) (hn : 5 ≤ n) (i : Fin 5) :
    (globalsAfterCall pressure n).lastPressureSamples i
      = pressure (n - (n + 4 - i.val) % 5) := by
  have h := lastPressureSamples_recent pressure n ((n + 4 - i.val) % 5)
    (Nat.mod_lt _ (by decide)) (by have := i.isLt; omega)
  have e : (⟨(n - 1 - (n + 4 - i.val) % 5) % 5, Nat.mod_lt _ (by decide)⟩ : Fin 5) = i := by
    apply Fin.ext
    show (n - 1 - (n + 4 - i.val) % 5) % 5 = i.val
    have := i.isLt
    omega
  rw [e] at h
  exact h

theorem sum_of_rotated (f : Nat → ℚ) (n : Nat) :
    f ((n + 4) % 5) + f ((n + 3) % 5) + f ((n + 2) % 5) + f ((n + 1) % 5) + f (n % 5)
      = f 0 + f 1 + f 2 + f 3 + f 4 := by
  have h4 : (n + 4) % 5 = (n % 5 + 4) % 5 := by omega
  have h3 : (n + 3) % 5 = (n % 5 + 3) % 5 := by omega
  have h2 : (n + 2) % 5 = (n % 5 + 2) % 5 := by omega
  have h1 : (n + 1) % 5 = (n % 5 + 1) % 5 := by omega
  rw [h4, h3, h2, h1]
  have hr : n % 5 < 5 := Nat.mod_lt _ (by decide)
  generalize n % 5 = r at hr
  interval_cases r <;> simp <;> ring

/-- From the fifth call on, the average of the buffer is the mean of the last
five samples given to `sample`. -/
theorem average_globalsAfterCall (pressure : Nat → ℚ) (n : Nat) (hn : 5 ≤ n) :
    getLastPressureSamplesAverage (globalsAfterCall pressure n) = meanOfLastFive pressure n := by
  rw [getLastPressureSamplesAverage_eq, lastPressureSamples_slot pressure n hn 0,
    lastPressureSamples_slot pressure n hn 1, lastPressureSamples_slot pressure n hn 2,
    lastPressureSamples_slot pressure n hn 3, lastPressureSamples_slot pressure n hn 4]
  have h := sum_of_rotated (fun j => pressure (n - j)) n
  simp only [] at h
  unfold meanOfLastFive
  have e0 : (n + 4 - (0 : Fin 5).val) % 5 = (n + 4) % 5 := rfl
  have e1 : (n + 4 - (1 : Fin 5).val) % 5 = (n + 3) % 5 := rfl
  have e2 : (n + 4 - (2 : Fin 5).val) % 5 = (n + 2) % 5 := rfl
  have e3 : (n + 4 - (3 : Fin 5).val) % 5 = (n + 1) % 5 := rfl
  have e4 : (n + 4 - (4 : Fin 5).val) % 5 = n % 5 := rfl
  rw [e0, e1, e2, e3, e4, h]
  simp only [Nat.sub_zero]
  ring

/-! ### The retained averages and the rate -/

/-- What the call number `n + 1` does to the retained averages and the rate. -/
theorem call_step (pressure : Nat → ℚ) (n : Nat) :
    (globalsAfterCall pressure (n + 1)).pressureAvg2
      = (if counterSchedule (n + 1) = 125 then
          getLastPressureSamplesAverage (globalsAfterCall pressure (n + 1))
         else (globalsAfterCall pressure n).pressureAvg2) ∧
    (globalsAfterCall pressure (n + 1)).pressureAvg
      = (if counterSchedule (n + 1) = 5 then
          getLastPressureSamplesAverage (globalsAfterCall pressure (n + 1))
         else if counterSchedule (n + 1) = 185 then (globalsAfterCall pressure n).pressureAvg2
         else (globalsAfterCall pressure n).pressureAvg) ∧
    (globalsAfterCall pressure (n + 1)).dP_dt
      = (if isRateMilestone (counterSchedule (n + 1)) = true then
          tableRate (counterSchedule (n + 1)) (decide (n < 185))
            ((getLastPressureSamplesAverage (globalsAfterCall pressure (n + 1))
              - (globalsAfterCall pressure n).pressureAvg) * CONVERSION_FACTOR)
         else (globalsAfterCall pressure n).dP_dt) := by
  obtain ⟨-, -, -, h2, h1, hr⟩ :=
    sampleUpdate_fields (globalsAfterCall pressure n) (pressure (n + 1))
  rw [← globalsAfterCall_succ, minuteCount_globalsAfterCall] at h2 h1 hr
  rw [firstRound_globalsAfterCall] at hr
  exact ⟨h2, h1, hr⟩

/-- In the first cycle the reference average is the one taken at the fifth call. -/
theorem pressureAvg_first_cycle (pressure : Nat → ℚ) (n : Nat) (h5 : 5 ≤ n) (h185 : n < 185) :
    (globalsAfterCall pressure n).pressureAvg
      = getLastPressureSamplesAverage (globalsAfterCall pressure 5) := by
  induction n, h5 using Nat.le_induction with
  | base =>
    have h := (call_step pressure 4).2.1
    simp only [Nat.reduceAdd] at h
    rw [h, if_pos (by decide)]
  | succ n hn ih =>
    rw [(call_step pressure n).2.1]
    have hc : counterSchedule (n + 1) = n + 1 := by
      unfold counterSchedule
      rw [if_pos (by omega)]
    rw [hc, if_neg (by omega), if_neg (by omega), ih (by omega)]

/-- The snapshot taken at the 125 milestone of a cycle is kept until the 125
milestone of the next cycle. -/
theorem pressureAvg2_cycle (pressure : Nat → ℚ) (k d : Nat) (hd : d < 180) :
    (globalsAfterCall pressure (125 + 180 * k + d)).pressureAvg2
      = getLastPressureSamplesAverage (globalsAfterCall pressure (125 + 180 * k)) := by
  induction d with
  | zero =>
    have hc : counterSchedule (125 + 180 * k) = 125 := by
      unfold counterSchedule
      split_ifs <;> omega
    have e : 125 + 180 * k = (124 + 180 * k) + 1 := by omega
    rw [Nat.add_zero]
    rw [e, (call_step pressure (124 + 180 * k)).1, ← e, if_pos hc]
  | succ d ih =>
    have hc : counterSchedule (125 + 180 * k + d + 1) ≠ 125 := by
      unfold counterSchedule
      split_ifs <;> omega
    rw [← Nat.add_assoc, (call_step pressure (125 + 180 * k + d)).1, if_neg hc, ih (by omega)]

/-- From the 185 milestone of a cycle until the call before the 185 milestone of
the next cycle, the reference average is the snapshot taken at the 125 milestone
of that cycle. -/
theorem pressureAvg_later_cycle (pressure : Nat → ℚ) (k d : Nat) (hd : d < 180) :
    (globalsAfterCall pressure (185 + 180 * k + d)).pressureAvg
      = getLastPressureSamplesAverage (globalsAfterCall pressure (125 + 180 * k)) := by
  induction d with
  | zero =>
    have hc : counterSchedule (185 + 180 * k) = 185 := by
      unfold counterSchedule
      split_ifs <;> omega
    have e : 185 + 180 * k = (184 + 180 * k) + 1 := by omega
    have e2 : 184 + 180 * k = 125 + 180 * k + 59 := by omega
    rw [Nat.add_zero]
    rw [e, (call_step pressure (184 + 180 * k)).2.1, ← e, if_neg (by rw [hc]; decide),
      if_pos hc, e2, pressureAvg2_cycle pressure k 59 (by decide)]
  | succ d ih =>
    have hc5 : counterSchedule (185 + 180 * k + d + 1) ≠ 5 := by
      unfold counterSchedule
      split_ifs <;> omega
    have hc185 : counterSchedule (185 + 180 * k + d + 1) ≠ 185 := by
      unfold counterSchedule
      split_ifs <;> omega
    rw [← Nat.add_assoc, (call_step pressure (185 + 180 * k + d)).2.1, if_neg hc5,
      if_neg hc185, ih (by omega)]

/-- The rate that a milestone call stores, from the averages of the buffer. -/
theorem dP_dt_at_milestone (pressure : Nat → ℚ) (n : Nat)
    (hm : isRateMilestone (counterSchedule (n + 1)) = true) :
    (globalsAfterCall pressure (n + 1)).dP_dt
      = tableRate (counterSchedule (n + 1)) (decide (n < 185))
          ((getLastPressureSamplesAverage (globalsAfterCall pressure (n + 1))
            - (globalsAfterCall pressure n).pressureAvg) * CONVERSION_FACTOR) := by
  rw [(call_step pressure n).2.2, if_pos hm]

/-! ### The claims about the rate formula -/

/-- C12: in the first cycle, with `A5` the average of the buffer after the
fifth call, the rate stored by the call number 35, 65, 95, 125, 155, 185 is
`(average of the buffer after that call - A5) * 0.1`, times 2 at 35, divided
by 1 at 65, by 1.5 at 95, by 2 at 125, by 2.5 at 155 and by 3 at 185. -/
theorem C12_first_cycle_rate (pressure : Nat → ℚ) :
    (globalsAfterCall pressure 35).dP_dt
      = (getLastPressureSamplesAverage (globalsAfterCall pressure 35)
          - getLastPressureSamplesAverage (globalsAfterCall pressure 5)) * 0.1 * 2 ∧
    (globalsAfterCall pressure 65).dP_dt
      = (getLastPressureSamplesAverage (globalsAfterCall pressure 65)
          - getLastPressureSamplesAverage (globalsAfterCall pressure 5)) * 0.1 / 1 ∧
    (globalsAfterCall pressure 95).dP_dt
      = (getLastPressureSamplesAverage (globalsAfterCall pressure 95)
          - getLastPressureSamplesAverage (globalsAfterCall pressure 5)) * 0.1 / 1.5 ∧
    (globalsAfterCall pressure 125).dP_dt
      = (getLastPressureSamplesAverage (globalsAfterCall pressure 125)
          - getLastPressureSamplesAverage (globalsAfterCall pressure 5)) * 0.1 / 2 ∧
    (globalsAfterCall pressure 155).dP_dt
      = (getLastPressureSamplesAverage (globalsAfterCall pressure 155)
          - getLastPressureSamplesAverage (globalsAfterCall pressure 5)) * 0.1 / 2.5 ∧
    (globalsAfterCall pressure 185).dP_dt
      = (getLastPressureSamplesAverage (globalsAfterCall pressure 185)
          - getLastPressureSamplesAverage (globalsAfterCall pressure 5)) * 0.1 / 3 := by
  have h35 := dP_dt_at_milestone pressure 34 (by decide)
  have h65 := dP_dt_at_milestone pressure 64 (by decide)
  have h95 := dP_dt_at_milestone pressure 94 (by decide)
  have h125 := dP_dt_at_milestone pressure 124 (by decide)
  have h155 := dP_dt_at_milestone pressure 154 (by decide)
  have h185 := dP_dt_at_milestone pressure 184 (by decide)
  rw [pressureAvg_first_cycle pressure 34 (by decide) (by decide)] at h35
  rw [pressureAvg_first_cycle pressure 64 (by decide) (by decide)] at h65
  rw [pressureAvg_first_cycle pressure 94 (by decide) (by decide)] at h95
  rw [pressureAvg_first_cycle pressure 124 (by decide) (by decide)] at h125
  rw [pressureAvg_first_cycle pressure 154 (by decide) (by decide)] at h155
  rw [pressureAvg_first_cycle pressure 184 (by decide) (by decide)] at h185
  simp only [Nat.reduceAdd] at h35 h65 h95 h125 h155 h185
  refine ⟨?_, ?_, ?_, ?_, ?_, ?_⟩
  · rw [h35]; norm_num [tableRate, counterSchedule, CONVERSION_FACTOR]
  · rw [h65]; norm_num [tableRate, counterSchedule, CONVERSION_FACTOR]
  · rw [h95]; norm_num [tableRate, counterSchedule, CONVERSION_FACTOR]
  · rw [h125]; norm_num [tableRate, counterSchedule, CONVERSION_FACTOR]
  · rw [h155]; norm_num [tableRate, counterSchedule, CONVERSION_FACTOR]
  · rw [h185]; norm_num [tableRate, counterSchedule, CONVERSION_FACTOR]

/-- The rate stored at a milestone `m` of a later cycle, from the snapshot taken
at the 125 milestone of the cycle before. -/
theorem dP_dt_later_cycle (pressure : Nat → ℚ) (k m : Nat) (hm : isRateMilestone m = true) :
    (globalsAfterCall pressure (m + 180 * (k + 1))).dP_dt
      = tableRate m false
          ((getLastPressureSamplesAverage (globalsAfterCall pressure (m + 180 * (k + 1)))
            - getLastPressureSamplesAverage (globalsAfterCall pressure (125 + 180 * k)))
            * CONVERSION_FACTOR) := by
  simp only [isRateMilestone, decide_eq_true_eq] at hm
  have hc : counterSchedule (m + 180 * (k + 1)) = m := by
    unfold counterSchedule
    split_ifs <;> omega
  have e : m + 180 * (k + 1) = (185 + 180 * k + (m - 6)) + 1 := by omega
  have hmile : isRateMilestone (counterSchedule ((185 + 180 * k + (m - 6)) + 1)) = true := by
    rw [← e, hc]
    simp only [isRateMilestone, decide_eq_true_eq]
    exact hm
  have h := dP_dt_at_milestone pressure (185 + 180 * k + (m - 6)) hmile
  rw [pressureAvg_later_cycle pressure k (m - 6) (by omega), ← e, hc] at h
  rw [h]
  have hlate : decide (185 + 180 * k + (m - 6) < 185) = false := by
    simp only [decide_eq_false_iff_not]
    omega
  rw [hlate]

/-- C13: `firstRound` holds after exactly the calls 0 to 184, so it holds
during the first 184 calls and the rate computation of call 185 (which divides
by 3, as in the first cycle), is cleared by call 185 and stays cleared. In
every later cycle (cycle `k + 2`, `k ≥ 0`) the rate stored at the milestone
35, 65, 95, 125, 155, 185 is `(average of the buffer now - R) * 0.1` divided by
1.5, 2, 2.5, 3, 3.5, 4, with `R` the average of the buffer at the 125 milestone
of the cycle before (call `125 + 180 * k`). -/
theorem C13_reference_rotation (pressure : Nat → ℚ) :
    (∀ n, (globalsAfterCall pressure n).firstRound = decide (n < 185)) ∧
    (globalsAfterCall pressure 185).dP_dt
      = (getLastPressureSamplesAverage (globalsAfterCall pressure 185)
          - getLastPressureSamplesAverage (globalsAfterCall pressure 5)) * 0.1 / 3 ∧
    ∀ k : Nat,
      (globalsAfterCall pressure (35 + 180 * (k + 1))).dP_dt
        = (getLastPressureSamplesAverage (globalsAfterCall pressure (35 + 180 * (k + 1)))
            - getLastPressureSamplesAverage (globalsAfterCall pressure (125 + 180 * k)))
            * 0.1 / 1.5 ∧
      (globalsAfterCall pressure (65 + 180 * (k + 1))).dP_dt
        = (getLastPressureSamplesAverage (globalsAfterCall pressure (65 + 180 * (k + 1)))
            - getLastPressureSamplesAverage (globalsAfterCall pressure (125 + 180 * k)))
            * 0.1 / 2 ∧
      (globalsAfterCall pressure (95 + 180 * (k + 1))).dP_dt
        = (getLastPressureSamplesAverage (globalsAfterCall pressure (95 + 180 * (k + 1)))
            - getLastPressureSamplesAverage (globalsAfterCall pressure (125 + 180 * k)))
            * 0.1 / 2.5 ∧
      (globalsAfterCall pressure (125 + 180 * (k + 1))).dP_dt
        = (getLastPressureSamplesAverage (globalsAfterCall pressure (125 + 180 * (k + 1)))
            - getLastPressureSamplesAverage (globalsAfterCall pressure (125 + 180 * k)))
            * 0.1 / 3 ∧
      (globalsAfterCall pressure (155 + 180 * (k + 1))).dP_dt
        = (getLastPressureSamplesAverage (globalsAfterCall pressure (155 + 180 * (k + 1)))
            - getLastPressureSamplesAverage (globalsAfterCall pressure (125 + 180 * k)))
            * 0.1 / 3.5 ∧
      (globalsAfterCall pressure (185 + 180 * (k + 1))).dP_dt
        = (getLastPressureSamplesAverage (globalsAfterCall pressure (185 + 180 * (k + 1)))
            - getLastPressureSamplesAverage (globalsAfterCall pressure (125 + 180 * k)))
            * 0.1 / 4 := by
  refine ⟨firstRound_globalsAfterCall pressure, ?_, ?_⟩
  · have h185 := dP_dt_at_milestone pressure 184 (by decide)
    rw [pressureAvg_first_cycle pressure 184 (by decide) (by decide)] at h185
    simp only [Nat.reduceAdd] at h185
    rw [h185]; norm_num [tableRate, counterSchedule, CONVERSION_FACTOR]
  · intro k
    refine ⟨?_, ?_, ?_, ?_, ?_, ?_⟩
    · rw [dP_dt_later_cycle pressure k 35 (by decide)]
      norm_num [tableRate, CONVERSION_FACTOR]
    · rw [dP_dt_later_cycle pressure k 65 (by decide)]
      norm_num [tableRate, CONVERSION_FACTOR]
    · rw [dP_dt_later_cycle pressure k 95 (by decide)]
      norm_num [tableRate, CONVERSION_FACTOR]
    · rw [dP_dt_later_cycle pressure k 125 (by decide)]
      norm_num [tableRate, CONVERSION_FACTOR]
    · rw [dP_dt_later_cycle pressure k 155 (by decide)]
      norm_num [tableRate, CONVERSION_FACTOR]
    · rw [dP_dt_later_cycle pressure k 185 (by decide)]
      norm_num [tableRate, CONVERSION_FACTOR]

/-! ### The claims about the counter and the buffer -/

/-- C16: after the call number `n ≥ 1` the counter is `n` when `n ≤ 185` and
`6 + (n - 186) mod 180` otherwise; it lies between 1 and 185, is 5 only after
the fifth call, and is a rate milestone exactly when `n ≥ 35` and
`n mod 30 = 5`. The rate is recomputed by the milestone calls and kept by all
others, and after a milestone call the next milestone call is 30 calls later. -/
theorem C16_counter_schedule (pressure : Nat → ℚ) (n : Nat) (hn : 1 ≤ n) :
    (globalsAfterCall pressure n).minuteCount
      = (if n ≤ 185 then n else 6 + (n - 186) % 180) ∧
    1 ≤ (globalsAfterCall pressure n).minuteCount ∧
    (globalsAfterCall pressure n).minuteCount ≤ 185 ∧
    ((globalsAfterCall pressure n).minuteCount = 5 ↔ n = 5) ∧
    (isRateMilestone (globalsAfterCall pressure n).minuteCount = true ↔
      35 ≤ n ∧ n % 30 = 5) ∧
    (globalsAfterCall pressure n).dP_dt
      = (if isRateMilestone (globalsAfterCall pressure n).minuteCount = true then
          tableRate (globalsAfterCall pressure n).minuteCount
            (globalsAfterCall pressure (n - 1)).firstRound
            ((getLastPressureSamplesAverage (globalsAfterCall pressure n)
              - (globalsAfterCall pressure (n - 1)).pressureAvg) * CONVERSION_FACTOR)
         else (globalsAfterCall pressure (n - 1)).dP_dt) ∧
    (isRateMilestone (globalsAfterCall pressure n).minuteCount = true →
      isRateMilestone (globalsAfterCall pressure (n + 30)).minuteCount = true ∧
      ∀ d, 1 ≤ d → d < 30 →
        isRateMilestone (globalsAfterCall pressure (n + d)).minuteCount = false) := by
  have hcount := minuteCount_globalsAfterCall pressure n
  have hb := counterSchedule_bounds n hn
  refine ⟨hcount, ?_, ?_, ?_, ?_, ?_, ?_⟩
  · rw [hcount]; exact hb.1
  · rw [hcount]; exact hb.2
  · rw [hcount]; exact counterSchedule_eq_five n
  · rw [hcount]; exact isRateMilestone_counterSchedule n
  · obtain ⟨m, rfl⟩ : ∃ m, n = m + 1 := ⟨n - 1, by omega⟩
    rw [Nat.add_sub_cancel, (call_step pressure m).2.2, minuteCount_globalsAfterCall,
      firstRound_globalsAfterCall]
  · intro hm
    rw [hcount, isRateMilestone_counterSchedule] at hm
    constructor
    · rw [minuteCount_globalsAfterCall, isRateMilestone_counterSchedule]
      omega
    · intro d hd1 hd30
      rw [minuteCount_globalsAfterCall]
      cases hmile : isRateMilestone (counterSchedule (n + d)) with
      | false => rfl
      | true =>
        rw [isRateMilestone_counterSchedule] at hmile
        omega

/-- C16 at the call number 215, the first rate milestone after the wrap: the
counter is 35. -/
theorem C16_counter_schedule_witness :
    1 ≤ 215 ∧ (globalsAfterCall (fun _ => 1013) 215).minuteCount = 35 :=
  ⟨by decide, (C16_counter_schedule (fun _ => 1013) 215 (by decide)).1⟩

/-- C20: the call number `n ≥ 1` writes its sample into the slot
`(n - 1) mod 5` and leaves the other slots alone, also around the wrap of the
counter. From the fifth call on, the slot `(n - 1 - j) mod 5` holds the sample
of the call `n - j` for `j = 0, ..., 4`, every slot holds one of these five
samples, and the average of the buffer, which is the average taken at the
milestones, is the mean of the last five samples. -/
theorem C20_buffer_holds_last_five (pressure : Nat → ℚ) (n : Nat) (hn : 1 ≤ n) :
    (globalsAfterCall pressure n).lastPressureSamples
      = Function.update (globalsAfterCall pressure (n - 1)).lastPressureSamples
          ⟨(n - 1) % 5, Nat.mod_lt _ (by decide)⟩ (pressure n) ∧
    (5 ≤ n →
      (∀ j (_ : j < 5), (globalsAfterCall pressure n).lastPressureSamples
          ⟨(n - 1 - j) % 5, Nat.mod_lt _ (by decide)⟩ = pressure (n - j)) ∧
      (∀ i : Fin 5, (globalsAfterCall pressure n).lastPressureSamples i
          = pressure (n - (n + 4 - i.val) % 5)) ∧
      getLastPressureSamplesAverage (globalsAfterCall pressure n)
        = (pressure (n - 4) + pressure (n - 3) + pressure (n - 2) + pressure (n - 1)
            + pressure n) / 5 ∧
      ((globalsAfterCall pressure n).minuteCount = 5 →
        (globalsAfterCall pressure n).pressureAvg = meanOfLastFive pressure n) ∧
      ((globalsAfterCall pressure n).minuteCount = 125 →
        (globalsAfterCall pressure n).pressureAvg2 = meanOfLastFive pressure n) ∧
      (isRateMilestone (globalsAfterCall pressure n).minuteCount = true →
        (globalsAfterCall pressure n).dP_dt
          = tableRate (globalsAfterCall pressure n).minuteCount
              (globalsAfterCall pressure (n - 1)).firstRound
              ((meanOfLastFive pressure n - (globalsAfterCall pressure (n - 1)).pressureAvg)
                * CONVERSION_FACTOR))) := by
  obtain ⟨m, rfl⟩ : ∃ m, n = m + 1 := ⟨n - 1, by omega⟩
  rw [Nat.add_sub_cancel]
  refine ⟨lastPressureSamples_succ pressure m, ?_⟩
  intro h5
  have havg := average_globalsAfterCall pressure (m + 1) h5
  refine ⟨?_, ?_, ?_, ?_, ?_, ?_⟩
  · intro j hj
    exact lastPressureSamples_recent pressure (m + 1) j hj (by omega)
  · intro i
    exact lastPressureSamples_slot pressure (m + 1) h5 i
  · rw [havg]
    rfl
  · intro hc
    rw [minuteCount_globalsAfterCall] at hc
    rw [(call_step pressure m).2.1, if_pos hc, havg]
  · intro hc
    rw [minuteCount_globalsAfterCall] at hc
    rw [(call_step pressure m).1, if_pos hc, havg]
  · intro hc
    rw [minuteCount_globalsAfterCall] at hc ⊢
    rw [(call_step pressure m).2.2, if_pos hc, havg, firstRound_globalsAfterCall]

/-- C20 at the call number 187, the second call after the wrap of the counter,
with the sample of the call `k` being `1000 + k`: the sample 1187 goes into
the slot 1 and the average of the buffer is that of the samples 1183 to 1187. -/
theorem C20_buffer_holds_last_five_witness :
    (1 ≤ 187 ∧ 5 ≤ 187) ∧
    (globalsAfterCall (fun k => 1000 + (k : ℚ)) 187).lastPressureSamples
      = Function.update (globalsAfterCall (fun k => 1000 + (k : ℚ)) 186).lastPressureSamples
          ⟨1, by decide⟩ (1000 + ((187 : Nat) : ℚ)) ∧
    getLastPressureSamplesAverage (globalsAfterCall (fun k => 1000 + (k : ℚ)) 187)
      = (1000 + ((183 : Nat) : ℚ) + (1000 + ((184 : Nat) : ℚ)) + (1000 + ((185 : Nat) : ℚ))
          + (1000 + ((186 : Nat) : ℚ)) + (1000 + ((187 : Nat) : ℚ))) / 5 :=
  ⟨⟨by decide, by decide⟩,
   (C20_buffer_holds_last_five (fun k => 1000 + (k : ℚ)) 187 (by decide)).1,
   ((C20_buffer_holds_last_five (fun k => 1000 + (k : ℚ)) 187 (by decide)).2
      (by decide)).2.2.1⟩

/-! ### The classification -/

theorem not_warm_up_of_le (pressure : Nat → ℚ) (n : Nat) (hn : 35 ≤ n) :
    ¬ ((globalsAfterCall pressure n).minuteCount < 35 ∧
        (globalsAfterCall pressure n).firstRound = true) := by
  rw [minuteCount_globalsAfterCall, firstRound_globalsAfterCall]
  rintro ⟨h1, h2⟩
  simp only [decide_eq_true_eq] at h2
  unfold counterSchedule at h1
  rw [if_pos (by omega)] at h1
  omega

theorem classify_chain (g : Globals)
    (h : ¬ (g.minuteCount < 35 ∧ g.firstRound = true)) :
    classify g =
      if g.dP_dt < -0.25 then 4
      else if g.dP_dt > 0.25 then 3
      else if g.dP_dt > -0.25 ∧ g.dP_dt < -0.05 then 2
      else if g.dP_dt > 0.05 ∧ g.dP_dt < 0.25 then 1
      else if g.dP_dt > -0.05 ∧ g.dP_dt < 0.05 then 0
      else 5 := by
  unfold classify
  rw [if_neg h]
  rfl

theorem classify_cases (g : Globals)
    (h : ¬ (g.minuteCount < 35 ∧ g.firstRound = true)) :
    (g.dP_dt < -0.25 → classify g = FORECAST.THUNDERSTORM.toInt) ∧
    (g.dP_dt > 0.25 → classify g = FORECAST.UNSTABLE.toInt) ∧
    (-0.25 < g.dP_dt ∧ g.dP_dt < -0.05 → classify g = FORECAST.CLOUDY.toInt) ∧
    (0.05 < g.dP_dt ∧ g.dP_dt < 0.25 → classify g = FORECAST.SUNNY.toInt) ∧
    (-0.05 < g.dP_dt ∧ g.dP_dt < 0.05 → classify g = FORECAST.STABLE.toInt) ∧
    (classify g = FORECAST.UNKNOWN.toInt ↔
      g.dP_dt = -0.25 ∨ g.dP_dt = -0.05 ∨ g.dP_dt = 0.05 ∨ g.dP_dt = 0.25) := by
  rw [classify_chain g h]
  generalize g.dP_dt = r
  simp only [FORECAST.toInt]
  have c1 : r < -0.25 → (if r < -0.25 then (4 : Int)
      else if r > 0.25 then 3
      else if r > -0.25 ∧ r < -0.05 then 2
      else if r > 0.05 ∧ r < 0.25 then 1
      else if r > -0.05 ∧ r < 0.05 then 0
      else 5) = 4 := fun h1 => if_pos h1
  have c2 : r > 0.25 → (if r < -0.25 then (4 : Int)
      else if r > 0.25 then 3
      else if r > -0.25 ∧ r < -0.05 then 2
      else if r > 0.05 ∧ r < 0.25 then 1
      else if r > -0.05 ∧ r < 0.05 then 0
      else 5) = 3 := by
    intro h2
    rw [if_neg (by norm_num at h2 ⊢; linarith), if_pos h2]
  have c3 : -0.25 < r ∧ r < -0.05 → (if r < -0.25 then (4 : Int)
      else if r > 0.25 then 3
      else if r > -0.25 ∧ r < -0.05 then 2
      else if r > 0.05 ∧ r < 0.25 then 1
      else if r > -0.05 ∧ r < 0.05 then 0
      else 5) = 2 := by
    intro h3
    have ha := h3.1
    have hb := h3.2
    rw [if_neg (by norm_num at ha hb ⊢; linarith), if_neg (by norm_num at ha hb ⊢; linarith),
      if_pos h3]
  have c4 : 0.05 < r ∧ r < 0.25 → (if r < -0.25 then (4 : Int)
      else if r > 0.25 then 3
      else if r > -0.25 ∧ r < -0.05 then 2
      else if r > 0.05 ∧ r < 0.25 then 1
      else if r > -0.05 ∧ r < 0.05 then 0
      else 5) = 1 := by
    intro h4
    have ha := h4.1
    have hb := h4.2
    rw [if_neg (by norm_num at ha hb ⊢; linarith), if_neg (by norm_num at ha hb ⊢; linarith),
      if_neg (by norm_num at ha hb ⊢; intro; linarith), if_pos h4]
  have c5 : -0.05 < r ∧ r < 0.05 → (if r < -0.25 then (4 : Int)
      else if r > 0.25 then 3
      else if r > -0.25 ∧ r < -0.05 then 2
      else if r > 0.05 ∧ r < 0.25 then 1
      else if r > -0.05 ∧ r < 0.05 then 0
      else 5) = 0 := by
    intro h5
    have ha := h5.1
    have hb := h5.2
    rw [if_neg (by norm_num at ha hb ⊢; linarith), if_neg (by norm_num at ha hb ⊢; linarith),
      if_neg (by norm_num at ha hb ⊢; intro; linarith),
      if_neg (by norm_num at ha hb ⊢; intro; linarith), if_pos h5]
  refine ⟨c1, c2, c3, c4, c5, ?_⟩
  constructor
  · intro h5
    by_contra hnot
    simp only [not_or] at hnot
    obtain ⟨n1, n2, n3, n4⟩ := hnot
    rcases lt_trichotomy r (-0.25) with h | h | h
    · rw [c1 h] at h5; exact absurd h5 (by decide)
    · exact n1 h
    rcases lt_trichotomy r (-0.05) with k | k | k
    · rw [c3 ⟨h, k⟩] at h5; exact absurd h5 (by decide)
    · exact n2 k
    rcases lt_trichotomy r 0.05 with l | l | l
    · rw [c5 ⟨k, l⟩] at h5; exact absurd h5 (by decide)
    · exact n3 l
    rcases lt_trichotomy r 0.25 with m | m | m
    · rw [c4 ⟨l, m⟩] at h5; exact absurd h5 (by decide)
    · exact n4 m
    · rw [c2 m] at h5; exact absurd h5 (by decide)
  · rintro (h | h | h | h) <;> subst h <;> norm_num

theorem rate_regions (r : ℚ) :
    r < -0.25 ∨ r > 0.25 ∨ (-0.25 < r ∧ r < -0.05) ∨ (0.05 < r ∧ r < 0.25) ∨
      (-0.05 < r ∧ r < 0.05) ∨ (r = -0.25 ∨ r = -0.05 ∨ r = 0.05 ∨ r = 0.25) := by
  rcases lt_trichotomy r (-0.25) with h | h | h
  · exact Or.inl h
  · exact Or.inr (Or.inr (Or.inr (Or.inr (Or.inr (Or.inl h)))))
  rcases lt_trichotomy r (-0.05) with k | k | k
  · exact Or.inr (Or.inr (Or.inl ⟨h, k⟩))
  · exact Or.inr (Or.inr (Or.inr (Or.inr (Or.inr (Or.inr (Or.inl k))))))
  rcases lt_trichotomy r 0.05 with l | l | l
  · exact Or.inr (Or.inr (Or.inr (Or.inr (Or.inl ⟨k, l⟩))))
  · exact Or.inr (Or.inr (Or.inr (Or.inr (Or.inr (Or.inr (Or.inr (Or.inl l)))))))
  rcases lt_trichotomy r 0.25 with m | m | m
  · exact Or.inr (Or.inr (Or.inr (Or.inl ⟨l, m⟩)))
  · exact Or.inr (Or.inr (Or.inr (Or.inr (Or.inr (Or.inr (Or.inr (Or.inr m)))))))
  · exact Or.inr (Or.inl m)

theorem classify_range (g : Globals) : 0 ≤ classify g ∧ classify g ≤ 5 := by
  unfold classify
  simp only [FORECAST.toInt]
  split_ifs <;> exact ⟨by decide, by decide⟩

theorem returnedByCall_eq_classify (pressure : Nat → ℚ) (n : Nat) (hn : 1 ≤ n) :
    returnedByCall pressure n = classify (globalsAfterCall pressure n) := by
  obtain ⟨m, rfl⟩ : ∃ m, n = m + 1 := ⟨n - 1, by omega⟩
  exact returnedByCall_succ pressure m

/-- C14: from the call number 35 on, the value returned is a function of the
rate `dP_dt` the call leaves: THUNDERSTORM below -0.25, UNSTABLE above 0.25,
CLOUDY between -0.25 and -0.05, SUNNY between 0.05 and 0.25, STABLE between
-0.05 and 0.05, and UNKNOWN exactly at the four boundary values. Every rate
falls in one of these cases, the codes of the cases differ, and the value
returned is one of the codes 0 to 5. -/
theorem C14_classification (pressure : Nat → ℚ) (n : Nat) (hn : 35 ≤ n) :
    ((globalsAfterCall pressure n).dP_dt < -0.25 →
      returnedByCall pressure n = FORECAST.THUNDERSTORM.toInt) ∧
    ((globalsAfterCall pressure n).dP_dt > 0.25 →
      returnedByCall pressure n = FORECAST.UNSTABLE.toInt) ∧
    (-0.25 < (globalsAfterCall pressure n).dP_dt ∧ (globalsAfterCall pressure n).dP_dt < -0.05 →
      returnedByCall pressure n = FORECAST.CLOUDY.toInt) ∧
    (0.05 < (globalsAfterCall pressure n).dP_dt ∧ (globalsAfterCall pressure n).dP_dt < 0.25 →
      returnedByCall pressure n = FORECAST.SUNNY.toInt) ∧
    (-0.05 < (globalsAfterCall pressure n).dP_dt ∧ (globalsAfterCall pressure n).dP_dt < 0.05 →
      returnedByCall pressure n = FORECAST.STABLE.toInt) ∧
    (returnedByCall pressure n = FORECAST.UNKNOWN.toInt ↔
      (globalsAfterCall pressure n).dP_dt = -0.25 ∨
      (globalsAfterCall pressure n).dP_dt = -0.05 ∨
      (globalsAfterCall pressure n).dP_dt = 0.05 ∨ (globalsAfterCall pressure n).dP_dt = 0.25) ∧
    ((globalsAfterCall pressure n).dP_dt < -0.25 ∨ (globalsAfterCall pressure n).dP_dt > 0.25 ∨
      (-0.25 < (globalsAfterCall pressure n).dP_dt ∧
        (globalsAfterCall pressure n).dP_dt < -0.05) ∨
      (0.05 < (globalsAfterCall pressure n).dP_dt ∧
        (globalsAfterCall pressure n).dP_dt < 0.25) ∨
      (-0.05 < (globalsAfterCall pressure n).dP_dt ∧
        (globalsAfterCall pressure n).dP_dt < 0.05) ∨
      ((globalsAfterCall pressure n).dP_dt = -0.25 ∨
        (globalsAfterCall pressure n).dP_dt = -0.05 ∨
        (globalsAfterCall pressure n).dP_dt = 0.05 ∨
        (globalsAfterCall pressure n).dP_dt = 0.25)) ∧
    (0 ≤ returnedByCall pressure n ∧ returnedByCall pressure n ≤ 5) ∧
    FORECAST.STABLE.toInt = 0 ∧ FORECAST.SUNNY.toInt = 1 ∧ FORECAST.CLOUDY.toInt = 2 ∧
    FORECAST.UNSTABLE.toInt = 3 ∧ FORECAST.THUNDERSTORM.toInt = 4 ∧
    FORECAST.UNKNOWN.toInt = 5 := by
  rw [returnedByCall_eq_classify pressure n (by omega)]
  obtain ⟨c1, c2, c3, c4, c5, c6⟩ :=
    classify_cases (globalsAfterCall pressure n) (not_warm_up_of_le pressure n hn)
  exact ⟨c1, c2, c3, c4, c5, c6, rate_regions _, classify_range _, rfl, rfl, rfl, rfl, rfl, rfl⟩

/-! ### Between the milestones, and constant pressure -/

/-- A call from the number 36 on that is no rate milestone keeps the rate, the
retained averages and the flag, and returns what the call before returned. -/
theorem call_between_milestones (pressure : Nat → ℚ) (m : Nat) (hm : 35 ≤ m)
    (hno : isRateMilestone (counterSchedule (m + 1)) = false) :
    (globalsAfterCall pressure (m + 1)).dP_dt = (globalsAfterCall pressure m).dP_dt ∧
    (globalsAfterCall pressure (m + 1)).pressureAvg = (globalsAfterCall pressure m).pressureAvg ∧
    (globalsAfterCall pressure (m + 1)).pressureAvg2
      = (globalsAfterCall pressure m).pressureAvg2 ∧
    (globalsAfterCall pressure (m + 1)).firstRound = (globalsAfterCall pressure m).firstRound ∧
    returnedByCall pressure (m + 1) = returnedByCall pressure m := by
  obtain ⟨h2, h1, hr⟩ := call_step pressure m
  have hno2 := hno
  simp only [isRateMilestone, decide_eq_false_iff_not, not_or] at hno2
  have h5 : counterSchedule (m + 1) ≠ 5 := by
    rw [Ne, counterSchedule_eq_five]
    omega
  have hrate : (globalsAfterCall pressure (m + 1)).dP_dt = (globalsAfterCall pressure m).dP_dt := by
    rw [hr, hno]
    rfl
  have hflag : (globalsAfterCall pressure (m + 1)).firstRound
      = (globalsAfterCall pressure m).firstRound := by
    rw [firstRound_globalsAfterCall, firstRound_globalsAfterCall]
    have hne : m + 1 ≠ 185 := by
      intro e
      rw [e] at hno
      exact absurd hno (by decide)
    simp only [decide_eq_decide]
    omega
  refine ⟨hrate, ?_, ?_, hflag, ?_⟩
  · rw [h1, if_neg h5, if_neg hno2.2.2.2.2.2]
  · rw [h2, if_neg hno2.2.2.2.1]
  · rw [returnedByCall_eq_classify pressure (m + 1) (by omega),
      returnedByCall_eq_classify pressure m (by omega),
      classify_chain _ (not_warm_up_of_le pressure (m + 1) (by omega)),
      classify_chain _ (not_warm_up_of_le pressure m hm), hrate]

theorem dP_dt_until_next_milestone (pressure : Nat → ℚ) (d : Nat) (hd : d < 30) :
    (globalsAfterCall pressure (35 + d)).dP_dt = (globalsAfterCall pressure 35).dP_dt := by
  induction d with
  | zero => rfl
  | succ d ih =>
    have hno : isRateMilestone (counterSchedule (35 + d + 1)) = false := by
      cases hmile : isRateMilestone (counterSchedule (35 + d + 1)) with
      | false => rfl
      | true =>
        rw [isRateMilestone_counterSchedule] at hmile
        omega
    rw [← Nat.add_assoc, (call_between_milestones pressure (35 + d) (by omega) hno).1,
      ih (by omega)]

/-- C15: a call from the number 36 on that is not a rate milestone leaves the
rate, both retained averages and the flag as they were and returns the value
the call before it returned, whatever its sample. If the rate stored by the
call 35 is above 0.25, the calls 35 to 64 all return UNSTABLE. -/
theorem C15_forecast_holds_between_milestones (pressure : Nat → ℚ) :
    (∀ n, 36 ≤ n → isRateMilestone (globalsAfterCall pressure n).minuteCount = false →
      (globalsAfterCall pressure n).dP_dt = (globalsAfterCall pressure (n - 1)).dP_dt ∧
      (globalsAfterCall pressure n).pressureAvg
        = (globalsAfterCall pressure (n - 1)).pressureAvg ∧
      (globalsAfterCall pressure n).pressureAvg2
        = (globalsAfterCall pressure (n - 1)).pressureAvg2 ∧
      (globalsAfterCall pressure n).firstRound
        = (globalsAfterCall pressure (n - 1)).firstRound ∧
      returnedByCall pressure n = returnedByCall pressure (n - 1)) ∧
    ((globalsAfterCall pressure 35).dP_dt > 0.25 →
      ∀ n, 35 ≤ n → n ≤ 64 → returnedByCall pressure n = FORECAST.UNSTABLE.toInt) := by
  constructor
  · intro n hn hno
    obtain ⟨m, rfl⟩ : ∃ m, n = m + 1 := ⟨n - 1, by omega⟩
    rw [minuteCount_globalsAfterCall] at hno
    rw [Nat.add_sub_cancel]
    exact call_between_milestones pressure m (by omega) hno
  · intro hrate n h35 h64
    obtain ⟨d, rfl⟩ : ∃ d, n = 35 + d := ⟨n - 35, by omega⟩
    rw [returnedByCall_eq_classify pressure (35 + d) (by omega)]
    refine (classify_cases _ (not_warm_up_of_le pressure (35 + d) (by omega))).2.1 ?_
    rw [dP_dt_until_next_milestone pressure d (by omega)]
    exact hrate

theorem tableRate_zero (minuteCount : Nat) (firstRound : Bool) :
    tableRate minuteCount firstRound 0 = 0 := by
  unfold tableRate
  split_ifs <;> simp

/-- With a constant pressure the rate stays 0 and the retained averages, once
taken, are that pressure. -/
theorem constant_pressure_invariant (pressure : Nat → ℚ) (p : ℚ)
    (hconst : ∀ k, 1 ≤ k → pressure k = p) (n : Nat) :
    (globalsAfterCall pressure n).dP_dt = 0 ∧
    (5 ≤ n → (globalsAfterCall pressure n).pressureAvg = p) ∧
    (125 ≤ n → (globalsAfterCall pressure n).pressureAvg2 = p) := by
  have hmean : ∀ m, 5 ≤ m →
      getLastPressureSamplesAverage (globalsAfterCall pressure m) = p := by
    intro m hm
    rw [average_globalsAfterCall pressure m hm]
    unfold meanOfLastFive
    rw [hconst (m - 4) (by omega), hconst (m - 3) (by omega), hconst (m - 2) (by omega),
      hconst (m - 1) (by omega), hconst m (by omega)]
    ring
  induction n with
  | zero => exact ⟨rfl, fun h => absurd h (by decide), fun h => absurd h (by decide)⟩
  | succ n ih =>
    obtain ⟨ihr, ih1, ih2⟩ := ih
    obtain ⟨h2, h1, hr⟩ := call_step pressure n
    refine ⟨?_, ?_, ?_⟩
    · rw [hr]
      split_ifs with hmile
      · rw [isRateMilestone_counterSchedule] at hmile
        rw [hmean (n + 1) (by omega), ih1 (by omega), sub_self, zero_mul, tableRate_zero]
      · exact ihr
    · intro h5
      rw [h1]
      split_ifs with hc5 hc185
      · exact hmean (n + 1) h5
      · apply ih2
        by_contra hlt
        have : counterSchedule (n + 1) = n + 1 := by
          unfold counterSchedule
          rw [if_pos (by omega)]
        omega
      · apply ih1
        rw [counterSchedule_eq_five] at hc5
        omega
    · intro h125
      rw [h2]
      split_ifs with hc
      · exact hmean (n + 1) (by omega)
      · apply ih2
        by_contra hlt
        have : counterSchedule (n + 1) = n + 1 := by
          unfold counterSchedule
          rw [if_pos (by omega)]
        omega

/-- C11: when every call of `sample` is given the same pressure `p`, every rate
computed is 0 and every call from the number 35 on returns STABLE, which is 0. -/
theorem C11_constant_pressure_is_stable (pressure : Nat → ℚ) (p : ℚ)
    (hconst : ∀ k, 1 ≤ k → pressure k = p) (n : Nat) (hn : 35 ≤ n) :
    returnedByCall pressure n = FORECAST.STABLE.toInt ∧
    FORECAST.STABLE.toInt = 0 ∧
    (globalsAfterCall pressure n).dP_dt = 0 := by
  have hr := (constant_pressure_invariant pressure p hconst n).1
  refine ⟨?_, rfl, hr⟩
  rw [returnedByCall_eq_classify pressure n (by omega)]
  refine (classify_cases _ (not_warm_up_of_le pressure n hn)).2.2.2.2.1 ?_
  rw [hr]
  norm_num

/-- C11 at the constant pressure 1013 and the call number 200, in the second
cycle. -/
theorem C11_constant_pressure_is_stable_witness :
    ((∀ k, 1 ≤ k → (fun _ : Nat => (1013 : ℚ)) k = 1013) ∧ 35 ≤ 200) ∧
    returnedByCall (fun _ => 1013) 200 = 0 :=
  ⟨⟨fun _ _ => rfl, by decide⟩,
   (C11_constant_pressure_is_stable (fun _ => 1013) 1013 (fun _ _ => rfl) 200 (by decide)).1⟩

/-- C14 at the call number 35 of a pressure that rises by 1 hPa a call: the
rate is above 0.25 and the call returns UNSTABLE, which is 3. -/
theorem C14_classification_witness :
    (35 ≤ 35 ∧ (globalsAfterCall (fun k => 1000 + (k : ℚ)) 35).dP_dt > 0.25) ∧
    returnedByCall (fun k => 1000 + (k : ℚ)) 35 = 3 :=
  ⟨⟨by decide, by decide!⟩,
   (C14_classification (fun k => 1000 + (k : ℚ)) 35 (by decide)).2.1 (by decide!)⟩

/-- C15 at the call number 40 of a pressure that rises by 1 hPa a call: it is
no milestone, returns what the call 39 returned, and that is UNSTABLE. -/
theorem C15_forecast_holds_between_milestones_witness :
    (36 ≤ 40 ∧
      isRateMilestone (globalsAfterCall (fun k => 1000 + (k : ℚ)) 40).minuteCount = false ∧
      (globalsAfterCall (fun k => 1000 + (k : ℚ)) 35).dP_dt > 0.25 ∧
      35 ≤ 40 ∧ 40 ≤ 64) ∧
    returnedByCall (fun k => 1000 + (k : ℚ)) 40
      = returnedByCall (fun k => 1000 + (k : ℚ)) 39 ∧
    returnedByCall (fun k => 1000 + (k : ℚ)) 40 = 3 :=
  ⟨⟨by decide, by decide!, by decide!, by decide, by decide⟩,
   ((C15_forecast_holds_between_milestones (fun k => 1000 + (k : ℚ))).1 40 (by decide)
      (by decide!)).2.2.2.2,
   (C15_forecast_holds_between_milestones (fun k => 1000 + (k : ℚ))).2 (by decide!) 40
      (by decide) (by decide)⟩

end WeatherForecast

namespace ThresholdUtil

/-! ### What a poll keeps: structure and configuration -/

theorem checkRemaining_configuration {σ : Type} (timeStamp : Nat)
    (aCallBack : SensorValueRequestedCallback σ)
    (transmissionCallback : SensorValueTransmission σ)
    (root : List ThresholdedSensorStruct) (env : σ) :
    (checkRemaining timeStamp aCallBack transmissionCallback root env).nodes.map configuration
      = root.map configuration := by
  induction root generalizing env with
  | nil => rfl
  | cons node rest ih =>
    simp only [checkRemaining, List.map_cons]
    rw [ih]
    obtain ⟨h1, h2, h3, h4, h5, h6⟩ :=
      check_configuration node timeStamp aCallBack transmissionCallback env
    simp only [configuration, h1, h2, h3, h4, h5, h6]

/-- C19: a poll returns a list of the same length whose nodes have, place by
place, the `child_id`, `sensor_id`, `sensor_type`, `threshHold`,
`readingInterval` and `forcedTransmissionInterval` they had; the fields left
out, `measureCounter`, `lastValue` and `lastChecked`, are the only ones that
can differ. -/
theorem C19_poll_keeps_structure_and_configuration {σ : Type}
    (root : List ThresholdedSensorStruct) (millis : Nat)
    (aCallBack : SensorValueRequestedCallback σ)
    (transmissionCallback : SensorValueTransmission σ) (env : σ) :
    (checkThresholdedSensors root millis aCallBack transmissionCallback env).nodes.length
      = root.length ∧
    (checkThresholdedSensors root millis aCallBack transmissionCallback env).nodes.map
      configuration = root.map configuration ∧
    ∀ (i : Nat) (before after : ThresholdedSensorStruct),
      root[i]? = some before →
      (checkThresholdedSensors root millis aCallBack transmissionCallback env).nodes[i]?
        = some after →
      after = { before with measureCounter := after.measureCounter
                            lastValue := after.lastValue
                            lastChecked := after.lastChecked } := by
  have hmap : (checkThresholdedSensors root millis aCallBack transmissionCallback env).nodes.map
      configuration = root.map configuration := by
    rw [checkThresholdedSensors_eq_checkRemaining]
    exact checkRemaining_configuration millis aCallBack transmissionCallback root env
  refine ⟨checkThresholdedSensors_length root millis aCallBack transmissionCallback env,
    hmap, ?_⟩
  intro i before after hb ha
  have h := congrArg (fun l => l[i]?) hmap
  simp only [List.getElem?_map, hb, ha, Option.map_some', Option.some.injEq, configuration,
    Prod.mk.injEq] at h
  obtain ⟨h1, h2, h3, h4, h5, h6⟩ := h
  cases after
  cases before
  simp only [] at h1 h2 h3 h4 h5 h6
  subst h1 h2 h3 h4 h5 h6
  rfl

/-! ### The counter stays below the forced interval -/

/-- The three ways a check of a due node can go. -/
theorem check_due_cases {σ : Type} (aSensor : ThresholdedSensorStruct) (timeStamp : Nat)
    (aCallBack : SensorValueRequestedCallback σ)
    (transmissionCallback : SensorValueTransmission σ) (env : σ)
    (hdue : aSensor.lastChecked ≤ timeStamp) :
    ((checkIndividualThreshHoldedSensor aSensor timeStamp aCallBack transmissionCallback
          env).calls
        = [CallbackEvent.valueRequested aSensor.sensor_id aSensor.sensor_type,
           CallbackEvent.valueTransmission aSensor.child_id aSensor.sensor_id
             aSensor.sensor_type (aCallBack env aSensor.sensor_id aSensor.sensor_type).1] ∧
      (checkIndividualThreshHoldedSensor aSensor timeStamp aCallBack transmissionCallback
          env).nodes.measureCounter = 0 ∧
      (checkIndividualThreshHoldedSensor aSensor timeStamp aCallBack transmissionCallback
          env).nodes.lastValue = (aCallBack env aSensor.sensor_id aSensor.sensor_type).1) ∨
    ((checkIndividualThreshHoldedSensor aSensor timeStamp aCallBack transmissionCallback
          env).calls
        = [CallbackEvent.valueRequested aSensor.sensor_id aSensor.sensor_type] ∧
      (checkIndividualThreshHoldedSensor aSensor timeStamp aCallBack transmissionCallback
          env).nodes.measureCounter = (aSensor.measureCounter + 1) % 256 ∧
      (aSensor.measureCounter + 1) % 256 ≠ aSensor.forcedTransmissionInterval ∧
      (checkIndividualThreshHoldedSensor aSensor timeStamp aCallBack transmissionCallback
          env).nodes.lastValue = aSensor.lastValue) := by
  by_cases hthr : aSensor.threshHold ≤
      |aSensor.lastValue - (aCallBack env aSensor.sensor_id aSensor.sensor_type).1|
  · left
    rw [check_due_threshold aSensor timeStamp aCallBack transmissionCallback env hdue hthr]
    exact ⟨rfl, rfl, rfl⟩
  · by_cases hcnt : (aSensor.measureCounter + 1) % 256 = aSensor.forcedTransmissionInterval
    · left
      rw [check_due_forced aSensor timeStamp aCallBack transmissionCallback env hdue hcnt]
      exact ⟨rfl, rfl, rfl⟩
    · right
      rw [check_due_quiet aSensor timeStamp aCallBack transmissionCallback env hdue
        (not_le.mp hthr) hcnt]
      exact ⟨rfl, rfl, hcnt, rfl⟩

theorem check_counter_below {σ : Type} (aSensor : ThresholdedSensorStruct) (timeStamp : Nat)
    (aCallBack : SensorValueRequestedCallback σ)
    (transmissionCallback : SensorValueTransmission σ) (env : σ)
    (h : aSensor.measureCounter < aSensor.forcedTransmissionInterval) :
    (checkIndividualThreshHoldedSensor aSensor timeStamp aCallBack transmissionCallback
        env).nodes.measureCounter
      < (checkIndividualThreshHoldedSensor aSensor timeStamp aCallBack transmissionCallback
        env).nodes.forcedTransmissionInterval := by
  rw [(check_configuration aSensor timeStamp aCallBack transmissionCallback env).2.1]
  by_cases hdue : aSensor.lastChecked ≤ timeStamp
  · rcases check_due_cases aSensor timeStamp aCallBack transmissionCallback env hdue with
      ⟨-, hc, -⟩ | ⟨-, hc, hne, -⟩
    · rw [hc]; omega
    · rw [hc]
      have := Nat.mod_le (aSensor.measureCounter + 1) 256
      omega
  · rw [check_not_due aSensor timeStamp aCallBack transmissionCallback env (by omega)]
    exact h

theorem checkRemaining_counter_below {σ : Type} (timeStamp : Nat)
    (aCallBack : SensorValueRequestedCallback σ)
    (transmissionCallback : SensorValueTransmission σ)
    (root : List ThresholdedSensorStruct) (env : σ) (h : CounterBelowInterval root) :
    CounterBelowInterval
      (checkRemaining timeStamp aCallBack transmissionCallback root env).nodes := by
  induction root generalizing env with
  | nil => intro node hmem; simp [checkRemaining] at hmem
  | cons first rest ih =>
    intro node hmem
    simp only [checkRemaining, List.mem_cons] at hmem
    rcases hmem with rfl | hmem
    · exact check_counter_below first timeStamp aCallBack transmissionCallback env
        (h first (List.mem_cons_self _ _))
    · exact ih _ (fun n hn => h n (List.mem_cons_of_mem _ hn)) node hmem

/-- From a counter `c < F`, a run that measures the node at least `k` times,
with `F ≤ c + k`, contains a check that reports. -/
theorem report_within {σ : Type} (aCallBack : SensorValueRequestedCallback σ)
    (transmissionCallback : SensorValueTransmission σ)
    (steps : List (Nat × σ)) (aSensor : ThresholdedSensorStruct) (k : Nat)
    (hF : aSensor.forcedTransmissionInterval < 256)
    (hc : aSensor.measureCounter < aSensor.forcedTransmissionInterval)
    (hk : aSensor.forcedTransmissionInterval ≤ aSensor.measureCounter + k)
    (hlen : k ≤ ((checkSuccessively aCallBack transmissionCallback aSensor steps).filter
      Outcome.measured).length) :
    ∃ o ∈ checkSuccessively aCallBack transmissionCallback aSensor steps,
      o.reported = true := by
  induction steps generalizing aSensor k with
  | nil =>
    simp only [checkSuccessively, List.filter_nil, List.length_nil] at hlen
    omega
  | cons step rest ih =>
    simp only [checkSuccessively, List.mem_cons] at hlen ⊢
    have hcfg := (check_configuration aSensor step.1 aCallBack transmissionCallback step.2).2.1
    by_cases hdue : aSensor.lastChecked ≤ step.1
    · rcases check_due_cases aSensor step.1 aCallBack transmissionCallback step.2 hdue with
        ⟨hcalls, -, -⟩ | ⟨hcalls, hcnt, hne, -⟩
      · refine ⟨_, Or.inl rfl, ?_⟩
        simp [Outcome.reported, hcalls, CallbackEvent.isTransmission]
      · have hmeas : (checkIndividualThreshHoldedSensor aSensor step.1 aCallBack
            transmissionCallback step.2).measured = true := by
          simp [Outcome.measured, hcalls]
        rw [List.filter_cons_of_pos hmeas, List.length_cons] at hlen
        have h256 : (aSensor.measureCounter + 1) % 256 = aSensor.measureCounter + 1 :=
          Nat.mod_eq_of_lt (by omega)
        obtain ⟨o, ho, hrep⟩ := ih _ (k - 1) (by rw [hcfg]; exact hF)
          (by rw [hcfg, hcnt]; omega) (by rw [hcfg, hcnt]; omega) (by omega)
        exact ⟨o, Or.inr ho, hrep⟩
    · have hstep := check_not_due aSensor step.1 aCallBack transmissionCallback step.2
        (by omega)
      rw [hstep] at hlen ⊢
      have hmeas : ¬ ((({ nodes := aSensor, env := step.2, calls := [] } :
          Outcome ThresholdedSensorStruct σ)).measured = true) := by
        simp [Outcome.measured]
      rw [List.filter_cons_of_neg hmeas] at hlen
      obtain ⟨o, ho, hrep⟩ := ih aSensor k hF hc hk hlen
      exact ⟨o, Or.inr ho, hrep⟩

/-- C17: the property that every node has `measureCounter` below its
`forcedTransmissionInterval` holds for the empty list, is kept by the
registration of a sensor with a forced interval from 1 to 255 and is kept by
every poll; so it holds in every state reached. From such a node, every run of
checks that measures it at least `forcedTransmissionInterval` times contains a
check that reports. -/
theorem C17_counter_below_forced_interval :
    CounterBelowInterval [] ∧
    (∀ (root : List ThresholdedSensorStruct) (millis child_id sensor_id : Nat)
      (sensor_type : ThreshHoldedSensorType) (threshHold : ℚ)
      (readingInterval forcedTransmissionInterval : Nat),
      1 ≤ forcedTransmissionInterval → forcedTransmissionInterval < 256 →
      CounterBelowInterval root →
      CounterBelowInterval (registerThresholdedSensor root millis child_id sensor_id
        sensor_type threshHold readingInterval forcedTransmissionInterval)) ∧
    (∀ (σ : Type) (root : List ThresholdedSensorStruct) (millis : Nat)
      (aCallBack : SensorValueRequestedCallback σ)
      (transmissionCallback : SensorValueTransmission σ) (env : σ),
      CounterBelowInterval root →
      CounterBelowInterval
        (checkThresholdedSensors root millis aCallBack transmissionCallback env).nodes) ∧
    (∀ (σ : Type) (aCallBack : SensorValueRequestedCallback σ)
      (transmissionCallback : SensorValueTransmission σ)
      (aSensor : ThresholdedSensorStruct) (steps : List (Nat × σ)),
      aSensor.forcedTransmissionInterval < 256 →
      aSensor.measureCounter < aSensor.forcedTransmissionInterval →
      aSensor.forcedTransmissionInterval ≤
        ((checkSuccessively aCallBack transmissionCallback aSensor steps).filter
          Outcome.measured).length →
      ∃ o ∈ checkSuccessively aCallBack transmissionCallback aSensor steps,
        o.reported = true) := by
  refine ⟨?_, ?_, ?_, ?_⟩
  · intro node hmem
    simp at hmem
  · intro root millis child_id sensor_id sensor_type threshHold readingInterval
      forcedTransmissionInterval h1 h256 hroot
    rw [registerThresholdedSensor_eq_append]
    intro node hmem
    rcases List.mem_append.mp hmem with hmem | hmem
    · exact hroot node hmem
    · rw [List.mem_singleton] at hmem
      subst hmem
      rw [newNode_measureCounter]
      show (forcedTransmissionInterval + 255) % 256 < forcedTransmissionInterval
      omega
  · intro σ root millis aCallBack transmissionCallback env hroot
    rw [checkThresholdedSensors_eq_checkRemaining]
    exact checkRemaining_counter_below millis aCallBack transmissionCallback root env hroot
  · intro σ aCallBack transmissionCallback aSensor steps hF hc hlen
    exact report_within aCallBack transmissionCallback steps aSensor
      aSensor.forcedTransmissionInterval hF hc (by omega) hlen

/-! ### `lastValue` is the value sent last -/

theorem lastTransmitted_append (front back : List CallbackEvent) (default : ℚ) :
    (lastTransmitted (front ++ back)).getD default
      = (lastTransmitted back).getD ((lastTransmitted front).getD default) := by
  induction front generalizing default with
  | nil => rfl
  | cons call rest ih =>
    cases call with
    | valueRequested aSensorId aType =>
      simp only [List.cons_append, lastTransmitted]
      exact ih default
    | valueTransmission child_id sensor_id sensor_type value =>
      simp only [List.cons_append, lastTransmitted]
      have h1 := ih value
      have h2 := ih default
      cases hfb : lastTransmitted (rest ++ back) with
      | none =>
        rw [hfb] at h1
        cases hr : lastTransmitted rest with
        | none => rw [hr] at h1; simpa using h1
        | some later => rw [hr] at h1; simpa using h1
      | some later =>
        rw [hfb] at h2
        cases hr : lastTransmitted rest with
        | none =>
          rw [hfb] at h1
          rw [hr] at h1
          simpa using h1
        | some later2 => rw [hr] at h2; simpa using h2

theorem nodeAfter_nil {σ : Type} (aCallBack : SensorValueRequestedCallback σ)
    (transmissionCallback : SensorValueTransmission σ) (aSensor : ThresholdedSensorStruct) :
    nodeAfter aCallBack transmissionCallback aSensor [] = aSensor := rfl

theorem nodeAfter_cons {σ : Type} (aCallBack : SensorValueRequestedCallback σ)
    (transmissionCallback : SensorValueTransmission σ) (aSensor : ThresholdedSensorStruct)
    (step : Nat × σ) (steps : List (Nat × σ)) :
    nodeAfter aCallBack transmissionCallback aSensor (step :: steps)
      = nodeAfter aCallBack transmissionCallback
          (checkIndividualThreshHoldedSensor aSensor step.1 aCallBack transmissionCallback
            step.2).nodes steps := by
  unfold nodeAfter
  cases steps with
  | nil => rfl
  | cons next rest =>
    simp only [checkSuccessively, List.getLast?_cons_cons]
    rw [List.getLast?_eq_getLast _ (List.cons_ne_nil _ _)]
    rfl

theorem callsOf_cons {σ : Type} (aCallBack : SensorValueRequestedCallback σ)
    (transmissionCallback : SensorValueTransmission σ) (aSensor : ThresholdedSensorStruct)
    (step : Nat × σ) (steps : List (Nat × σ)) :
    callsOf aCallBack transmissionCallback aSensor (step :: steps)
      = (checkIndividualThreshHoldedSensor aSensor step.1 aCallBack transmissionCallback
          step.2).calls ++
        callsOf aCallBack transmissionCallback
          (checkIndividualThreshHoldedSensor aSensor step.1 aCallBack transmissionCallback
            step.2).nodes steps := by
  simp [callsOf, checkSuccessively]

/-- One check leaves in `lastValue` the value it transmitted, or the old
`lastValue` when it transmitted nothing. -/
theorem check_lastValue {σ : Type} (aSensor : ThresholdedSensorStruct) (timeStamp : Nat)
    (aCallBack : SensorValueRequestedCallback σ)
    (transmissionCallback : SensorValueTransmission σ) (env : σ) :
    (checkIndividualThreshHoldedSensor aSensor timeStamp aCallBack transmissionCallback
        env).nodes.lastValue
      = (lastTransmitted (checkIndividualThreshHoldedSensor aSensor timeStamp aCallBack
          transmissionCallback env).calls).getD aSensor.lastValue := by
  by_cases hdue : aSensor.lastChecked ≤ timeStamp
  · rcases check_due_cases aSensor timeStamp aCallBack transmissionCallback env hdue with
      ⟨hcalls, -, hval⟩ | ⟨hcalls, -, -, hval⟩
    · rw [hcalls, hval]
      rfl
    · rw [hcalls, hval]
      rfl
  · rw [check_not_due aSensor timeStamp aCallBack transmissionCallback env (by omega)]
    rfl

theorem nodeAfter_lastValue {σ : Type} (aCallBack : SensorValueRequestedCallback σ)
    (transmissionCallback : SensorValueTransmission σ) (steps : List (Nat × σ))
    (aSensor : ThresholdedSensorStruct) :
    (nodeAfter aCallBack transmissionCallback aSensor steps).lastValue
      = (lastTransmitted (callsOf aCallBack transmissionCallback aSensor steps)).getD
          aSensor.lastValue := by
  induction steps generalizing aSensor with
  | nil => rfl
  | cons step rest ih =>
    rw [nodeAfter_cons, callsOf_cons, lastTransmitted_append, ih, check_lastValue]

/-- C18: after every run of checks of a node as `registerThresholdedSensor`
builds it, `lastValue` is the value given to the last call of the transmission
callback made for the node in that run, or 0 when there was none. A check that
does not report leaves `lastValue` as it was, and a check that reports sets it
to the value it transmits. -/
theorem C18_lastValue_is_last_sent :
    (∀ (σ : Type) (aCallBack : SensorValueRequestedCallback σ)
      (transmissionCallback : SensorValueTransmission σ)
      (millis child_id sensor_id : Nat) (sensor_type : ThreshHoldedSensorType)
      (threshHold : ℚ) (readingInterval forcedTransmissionInterval : Nat)
      (steps : List (Nat × σ)),
      (nodeAfter aCallBack transmissionCallback
          (newNode millis child_id sensor_id sensor_type threshHold readingInterval
            forcedTransmissionInterval) steps).lastValue
        = (lastTransmitted (callsOf aCallBack transmissionCallback
            (newNode millis child_id sensor_id sensor_type threshHold readingInterval
              forcedTransmissionInterval) steps)).getD 0) ∧
    (∀ (σ : Type) (aSensor : ThresholdedSensorStruct) (timeStamp : Nat)
      (aCallBack : SensorValueRequestedCallback σ)
      (transmissionCallback : SensorValueTransmission σ) (env : σ),
      (checkIndividualThreshHoldedSensor aSensor timeStamp aCallBack transmissionCallback
          env).reported = false →
      (checkIndividualThreshHoldedSensor aSensor timeStamp aCallBack transmissionCallback
          env).nodes.lastValue = aSensor.lastValue) ∧
    (∀ (σ : Type) (aSensor : ThresholdedSensorStruct) (timeStamp : Nat)
      (aCallBack : SensorValueRequestedCallback σ)
      (transmissionCallback : SensorValueTransmission σ) (env : σ),
      (checkIndividualThreshHoldedSensor aSensor timeStamp aCallBack transmissionCallback
          env).reported = true →
      (checkIndividualThreshHoldedSensor aSensor timeStamp aCallBack transmissionCallback
          env).calls
        = [CallbackEvent.valueRequested aSensor.sensor_id aSensor.sensor_type,
           CallbackEvent.valueTransmission aSensor.child_id aSensor.sensor_id
             aSensor.sensor_type
             (checkIndividualThreshHoldedSensor aSensor timeStamp aCallBack
               transmissionCallback env).nodes.lastValue]) := by
  refine ⟨?_, ?_, ?_⟩
  · intro σ aCallBack transmissionCallback millis child_id sensor_id sensor_type threshHold
      readingInterval forcedTransmissionInterval steps
    exact nodeAfter_lastValue aCallBack transmissionCallback steps _
  · intro σ aSensor timeStamp aCallBack transmissionCallback env hrep
    by_cases hdue : aSensor.lastChecked ≤ timeStamp
    · rcases check_due_cases aSensor timeStamp aCallBack transmissionCallback env hdue with
        ⟨hcalls, -, -⟩ | ⟨-, -, -, hval⟩
      · simp [Outcome.reported, hcalls, CallbackEvent.isTransmission] at hrep
      · exact hval
    · rw [check_not_due aSensor timeStamp aCallBack transmissionCallback env (by omega)]
  · intro σ aSensor timeStamp aCallBack transmissionCallback env hrep
    by_cases hdue : aSensor.lastChecked ≤ timeStamp
    · rcases check_due_cases aSensor timeStamp aCallBack transmissionCallback env hdue with
        ⟨hcalls, -, hval⟩ | ⟨hcalls, -, -, -⟩
      · rw [hcalls, hval]
      · simp [Outcome.reported, hcalls, CallbackEvent.isTransmission] at hrep
    · rw [check_not_due aSensor timeStamp aCallBack transmissionCallback env (by omega)]
        at hrep
      simp [Outcome.reported] at hrep

/-- C17 at the registration of a sensor with forced interval 3 in the empty
list, at a poll of that list at 1000, and at a run of three due checks of a
node with counter 0 and forced interval 3 whose sensor always shows 0. -/
theorem C17_counter_below_forced_interval_witness :
    ((1 ≤ 3 ∧ 3 < 256 ∧ CounterBelowInterval []) ∧
      CounterBelowInterval
        (registerThresholdedSensor [] 0 1 7 ThreshHoldedSensorType.TEMPERATURE_SENSOR 2 1 3)) ∧
    (CounterBelowInterval
        (registerThresholdedSensor [] 0 1 7 ThreshHoldedSensorType.TEMPERATURE_SENSOR 2 1 3) ∧
      CounterBelowInterval
        (checkThresholdedSensors
          (registerThresholdedSensor [] 0 1 7 ThreshHoldedSensorType.TEMPERATURE_SENSOR 2 1 3)
          1000 scriptedCallBack scriptedTransmission [5]).nodes) ∧
    ((3 < 256 ∧ 0 < 3 ∧
      3 ≤ ((checkSuccessively scriptedCallBack scriptedTransmission
        { child_id := 1, sensor_id := 7
          sensor_type := ThreshHoldedSensorType.TEMPERATURE_SENSOR
          threshHold := 2, forcedTransmissionInterval := 3, measureCounter := 0
          lastValue := 0, lastChecked := 1000, readingInterval := 1 }
        [(1000, []), (2000, []), (3000, [])]).filter Outcome.measured).length) ∧
      ∃ o ∈ checkSuccessively scriptedCallBack scriptedTransmission
        { child_id := 1, sensor_id := 7
          sensor_type := ThreshHoldedSensorType.TEMPERATURE_SENSOR
          threshHold := 2, forcedTransmissionInterval := 3, measureCounter := 0
          lastValue := 0, lastChecked := 1000, readingInterval := 1 }
        [(1000, []), (2000, []), (3000, [])], o.reported = true) :=
  ⟨⟨⟨by decide, by decide, by decide⟩,
    C17_counter_below_forced_interval.2.1 [] 0 1 7 ThreshHoldedSensorType.TEMPERATURE_SENSOR
      2 1 3 (by decide) (by decide) (by decide)⟩,
   ⟨by decide!,
    C17_counter_below_forced_interval.2.2.1 (List ℚ)
      (registerThresholdedSensor [] 0 1 7 ThreshHoldedSensorType.TEMPERATURE_SENSOR 2 1 3)
      1000 scriptedCallBack scriptedTransmission [5] (by decide!)⟩,
   ⟨⟨by decide, by decide, by decide!⟩,
    C17_counter_below_forced_interval.2.2.2 (List ℚ) scriptedCallBack scriptedTransmission
      { child_id := 1, sensor_id := 7
        sensor_type := ThreshHoldedSensorType.TEMPERATURE_SENSOR
        threshHold := 2, forcedTransmissionInterval := 3, measureCounter := 0
        lastValue := 0, lastChecked := 1000, readingInterval := 1 }
      [(1000, []), (2000, []), (3000, [])] (by decide) (by decide) (by decide!)⟩⟩

/-- C18 at a check that is due and stays below the threshold (last value 0,
threshold 2, answer 1): nothing is reported and `lastValue` stays 0. -/
theorem C18_lastValue_is_last_sent_witness :
    (checkIndividualThreshHoldedSensor
        { child_id := 1, sensor_id := 7
          sensor_type := ThreshHoldedSensorType.TEMPERATURE_SENSOR
          threshHold := 2, forcedTransmissionInterval := 3, measureCounter := 0
          lastValue := 0, lastChecked := 1000, readingInterval := 1 }
        1000 scriptedCallBack scriptedTransmission [1]).reported = false ∧
    (checkIndividualThreshHoldedSensor
        { child_id := 1, sensor_id := 7
          sensor_type := ThreshHoldedSensorType.TEMPERATURE_SENSOR
          threshHold := 2, forcedTransmissionInterval := 3, measureCounter := 0
          lastValue := 0, lastChecked := 1000, readingInterval := 1 }
        1000 scriptedCallBack scriptedTransmission [1]).nodes.lastValue = 0 :=
  ⟨by decide!,
   C18_lastValue_is_last_sent.2.1 (List ℚ)
    { child_id := 1, sensor_id := 7
      sensor_type := ThreshHoldedSensorType.TEMPERATURE_SENSOR
      threshHold := 2, forcedTransmissionInterval := 3, measureCounter := 0
      lastValue := 0, lastChecked := 1000, readingInterval := 1 }
    1000 scriptedCallBack scriptedTransmission [1] (by decide!)⟩

/-- C19 at a poll at 1000 of a list of one due node that is answered 5: the
node afterwards differs from the node before in the three state fields only. -/
theorem C19_poll_keeps_structure_and_configuration_witness :
    ([({ child_id := 1, sensor_id := 7
         sensor_type := ThreshHoldedSensorType.TEMPERATURE_SENSOR
         threshHold := 2, forcedTransmissionInterval := 3, measureCounter := 1
         lastValue := 0, lastChecked := 1000, readingInterval := 1 } :
        ThresholdedSensorStruct)][0]?
      = some { child_id := 1, sensor_id := 7
               sensor_type := ThreshHoldedSensorType.TEMPERATURE_SENSOR
               threshHold := 2, forcedTransmissionInterval := 3, measureCounter := 1
               lastValue := 0, lastChecked := 1000, readingInterval := 1 } ∧
      (checkThresholdedSensors
        [{ child_id := 1, sensor_id := 7
           sensor_type := ThreshHoldedSensorType.TEMPERATURE_SENSOR
           threshHold := 2, forcedTransmissionInterval := 3, measureCounter := 1
           lastValue := 0, lastChecked := 1000, readingInterval := 1 }]
        1000 scriptedCallBack scriptedTransmission [5]).nodes[0]?
      = some { child_id := 1, sensor_id := 7
               sensor_type := ThreshHoldedSensorType.TEMPERATURE_SENSOR
               threshHold := 2, forcedTransmissionInterval := 3, measureCounter := 0
               lastValue := 5, lastChecked := 2000, readingInterval := 1 }) ∧
    ({ child_id := 1, sensor_id := 7
       sensor_type := ThreshHoldedSensorType.TEMPERATURE_SENSOR
       threshHold := 2, forcedTransmissionInterval := 3, measureCounter := 0
       lastValue := 5, lastChecked := 2000, readingInterval := 1 } : ThresholdedSensorStruct)
      = { child_id := 1, sensor_id := 7
          sensor_type := ThreshHoldedSensorType.TEMPERATURE_SENSOR
          threshHold := 2, forcedTransmissionInterval := 3, measureCounter := 0
          lastValue := 5, lastChecked := 2000, readingInterval := 1 } :=
  ⟨⟨rfl, by decide!⟩,
   (C19_poll_keeps_structure_and_configuration
    [{ child_id := 1, sensor_id := 7
       sensor_type := ThreshHoldedSensorType.TEMPERATURE_SENSOR
       threshHold := 2, forcedTransmissionInterval := 3, measureCounter := 1
       lastValue := 0, lastChecked := 1000, readingInterval := 1 }]
    1000 scriptedCallBack scriptedTransmission [5]).2.2 0
    { child_id := 1, sensor_id := 7
      sensor_type := ThreshHoldedSensorType.TEMPERATURE_SENSOR
      threshHold := 2, forcedTransmissionInterval := 3, measureCounter := 1
      lastValue := 0, lastChecked := 1000, readingInterval := 1 }
    { child_id := 1, sensor_id := 7
      sensor_type := ThreshHoldedSensorType.TEMPERATURE_SENSOR
      threshHold := 2, forcedTransmissionInterval := 3, measureCounter := 0
      lastValue := 5, lastChecked := 2000, readingInterval := 1 } rfl (by decide!)⟩

end ThresholdUtil
